import Mathlib

/-
Verification development for the influencer-agent repository.
Shallow embedding of the tweet-ingestion and prediction pipeline:
  src/utils/mongo_service.py  (save_tweet, check_tweet_exists, save_account_info)
  src/utils/models.py         (SummaryModel, TweetModel.parse_datetime)
  src/utils/x_api.py          (get_user_tweets, get_token_price and providers)
  src/utils/gpt_client.py     (tweet_analysis, handle_tool_calls)
  src/main.py                 (fetch_influencers_tweets)
Python machine values (str, dict, datetime, float) are modelled with Lean
types; floats are modelled by rationals; all definitions are executable.
-/

/-! # Models of Python string primitives -/

/-- Model of Python truthiness of an optional string value: absent keys and
the empty string are falsy. -/
def truthyStr : Option String → Bool
  | none => false
  | some s => s ≠ ""

/-- Model of the Python expression `a or b` on two optional string values:
the first operand is returned when truthy, otherwise the second. -/
def pyOr (a b : Option String) : Option String :=
  if truthyStr a then a else b

/-- Model of the Python conversion `str(v)` applied to an optional string:
`str(None)` is the literal string "None". -/
def pyStr : Option String → String
  | none => "None"
  | some s => s

/-- Model of Python `str.lower` (ASCII range, which covers the handles and
symbols this repository manipulates). -/
def pyLower (s : String) : String :=
  ⟨s.data.map fun c => if 'A' ≤ c ∧ c ≤ 'Z' then Char.ofNat (c.toNat + 32) else c⟩

/-- Model of Python `str.upper` (ASCII range). -/
def pyUpper (s : String) : String :=
  ⟨s.data.map fun c => if 'a' ≤ c ∧ c ≤ 'z' then Char.ofNat (c.toNat - 32) else c⟩

/-- Python whitespace characters stripped by `str.strip`. -/
def isPySpace (c : Char) : Bool :=
  [32, 9, 10, 13, 11, 12].contains c.toNat

/-- Model of Python `str.strip` with no arguments. -/
def pyStrip (s : String) : String :=
  ⟨((s.data.dropWhile isPySpace).reverse.dropWhile isPySpace).reverse⟩

/-- Model of the Python call `s.replace("Z", "+00:00")` used on timestamp
strings (single-character pattern, replace all occurrences). -/
def replaceZL (cs : List Char) : List Char :=
  cs.flatMap fun c => if c = 'Z' then ['+', '0', '0', ':', '0', '0'] else [c]

/-- String-level wrapper of `replaceZL`. -/
def replaceZ (s : String) : String := ⟨replaceZL s.data⟩

/-- Model of the Python call `s.replace("USDT", "")` from
`get_token_price_binance` (left-to-right, non-overlapping). -/
def removeUSDTL : List Char → List Char
  | 'U' :: 'S' :: 'D' :: 'T' :: rest => removeUSDTL rest
  | c :: rest => c :: removeUSDTL rest
  | [] => []

/-- String-level wrapper of `removeUSDTL`. -/
def removeUSDT (s : String) : String := ⟨removeUSDTL s.data⟩

/-! # Model of Python datetimes and the parsing routines the code calls

`PyDateTime` mirrors the fields of `datetime.datetime`; `tzOffsetMinutes`
is `none` for a naive datetime and `some o` for an aware one with a fixed
UTC offset of `o` minutes. -/

structure PyDateTime where
  year : Nat
  month : Nat
  day : Nat
  hour : Nat
  minute : Nat
  second : Nat
  microsecond : Nat
  tzOffsetMinutes : Option Int
deriving DecidableEq

/-- Numeric value of an ASCII digit character, `none` for non-digits. -/
def digitVal? (c : Char) : Option Nat :=
  if c.isDigit then some (c.toNat - 48) else none

/-- Parse exactly two digit characters into a number. -/
def parse2 : List Char → Option (Nat × List Char)
  | c1 :: c2 :: rest =>
    match digitVal? c1, digitVal? c2 with
    | some d1, some d2 => some (10 * d1 + d2, rest)
    | _, _ => none
  | _ => none

/-- Parse exactly four digit characters into a number. -/
def parse4 (cs : List Char) : Option (Nat × List Char) :=
  match parse2 cs with
  | some (hi, r) =>
    match parse2 r with
    | some (lo, r2) => some (100 * hi + lo, r2)
    | none => none
  | none => none

/-- Consume one expected character. -/
def expectChar (c : Char) : List Char → Option (List Char)
  | c2 :: rest => if c2 = c then some rest else none
  | [] => none

/-- Gregorian leap-year test, as validated by `datetime`. -/
def leapYear (y : Nat) : Bool :=
  (y % 4 = 0 && y % 100 ≠ 0) || y % 400 = 0

/-- Days in a month, as validated by `datetime`. -/
def daysInMonth (y m : Nat) : Nat :=
  if m = 2 then (if leapYear y then 29 else 28)
  else if m = 4 ∨ m = 6 ∨ m = 9 ∨ m = 11 then 30
  else 31

/-- Parse a fractional-seconds suffix of exactly three or six digits into
microseconds (the shapes `datetime.fromisoformat` accepts before 3.11). -/
def parseMicro : List Char → Option (Nat × List Char)
  | a :: b :: c :: rest =>
    match digitVal? a, digitVal? b, digitVal? c with
    | some da, some db, some dc =>
      let m3 := 100 * da + 10 * db + dc
      match rest with
      | d :: e :: f :: rest2 =>
        match digitVal? d, digitVal? e, digitVal? f with
        | some dd, some de, some df =>
          some (m3 * 1000 + 100 * dd + 10 * de + df, rest2)
        | _, _, _ => some (m3 * 1000, rest)
      | _ => some (m3 * 1000, rest)
    | _, _, _ => none
  | _ => none

/-- Parse the `HH:MM[:SS[.ffffff]]` part of an ISO time. Returns
(hour, minute, second, microsecond, rest). -/
def parseTime (cs : List Char) : Option (Nat × Nat × Nat × Nat × List Char) :=
  match parse2 cs with
  | none => none
  | some (h, r) =>
    match expectChar ':' r with
    | none => none
    | some r2 =>
      match parse2 r2 with
      | none => none
      | some (mi, r3) =>
        match r3 with
        | ':' :: r4 =>
          match parse2 r4 with
          | none => none
          | some (s, r5) =>
            match r5 with
            | '.' :: r6 =>
              match parseMicro r6 with
              | none => none
              | some (mic, r7) => some (h, mi, s, mic, r7)
            | _ => some (h, mi, s, 0, r5)
        | _ => some (h, mi, 0, 0, r3)

/-- Parse an optional trailing UTC offset of the form `+HH:MM` / `-HH:MM`
(the shape produced by replacing a `Z` suffix with `+00:00`). -/
def parseTzOff : List Char → Option (Option Int × List Char)
  | [] => some (none, [])
  | '+' :: r =>
    match parse2 r with
    | some (hh, r2) =>
      match expectChar ':' r2 with
      | some r3 =>
        match parse2 r3 with
        | some (mm, r4) =>
          if hh < 24 ∧ mm < 60 then some (some ((hh : Int) * 60 + mm), r4) else none
        | none => none
      | none => none
    | none => none
  | '-' :: r =>
    match parse2 r with
    | some (hh, r2) =>
      match expectChar ':' r2 with
      | some r3 =>
        match parse2 r3 with
        | some (mm, r4) =>
          if hh < 24 ∧ mm < 60 then some (some (-((hh : Int) * 60 + mm)), r4) else none
        | none => none
      | none => none
    | none => none
  | _ => none

/-- Model of Python `datetime.fromisoformat` (as called on the strings this
repository produces: `YYYY-MM-DD`, optionally a separator character and
`HH:MM[:SS[.fff|.ffffff]]`, optionally a `+HH:MM` / `-HH:MM` offset).
Returns `none` where Python raises `ValueError`. -/
def fromisoformatL (cs : List Char) : Option PyDateTime :=
  match parse4 cs with
  | none => none
  | some (y, r) =>
    match expectChar '-' r with
    | none => none
    | some r1 =>
      match parse2 r1 with
      | none => none
      | some (mo, r2) =>
        match expectChar '-' r2 with
        | none => none
        | some r3 =>
          match parse2 r3 with
          | none => none
          | some (d, r4) =>
            if 1 ≤ y ∧ 1 ≤ mo ∧ mo ≤ 12 ∧ 1 ≤ d ∧ d ≤ daysInMonth y mo then
              match r4 with
              | [] => some ⟨y, mo, d, 0, 0, 0, 0, none⟩
              | _sep :: r5 =>
                match parseTime r5 with
                | none => none
                | some (hh, mi, ss, mic, r6) =>
                  match parseTzOff r6 with
                  | none => none
                  | some (tz, r7) =>
                    if r7 = [] ∧ hh < 24 ∧ mi < 60 ∧ ss < 60 then
                      some ⟨y, mo, d, hh, mi, ss, mic, tz⟩
                    else none
            else none

/-- String-level wrapper of `fromisoformatL`. -/
def fromisoformat (s : String) : Option PyDateTime := fromisoformatL s.data

/-- Model of `datetime.strptime(s, "%Y-%m-%d %H:%M:%S")`: the exact
space-separated date-time shape, no offset, no fraction. -/
def strptimeSpace (s : String) : Option PyDateTime :=
  match parse4 s.data with
  | none => none
  | some (y, r) =>
    match expectChar '-' r with
    | none => none
    | some r1 =>
      match parse2 r1 with
      | none => none
      | some (mo, r2) =>
        match expectChar '-' r2 with
        | none => none
        | some r3 =>
          match parse2 r3 with
          | none => none
          | some (d, r4) =>
            match expectChar ' ' r4 with
            | none => none
            | some r5 =>
              match parse2 r5 with
              | none => none
              | some (hh, r6) =>
                match expectChar ':' r6 with
                | none => none
                | some r7 =>
                  match parse2 r7 with
                  | none => none
                  | some (mi, r8) =>
                    match expectChar ':' r8 with
                    | none => none
                    | some r9 =>
                      match parse2 r9 with
                      | none => none
                      | some (ss, r10) =>
                        if r10 = [] ∧ 1 ≤ y ∧ 1 ≤ mo ∧ mo ≤ 12 ∧ 1 ≤ d ∧
                            d ≤ daysInMonth y mo ∧ hh < 24 ∧ mi < 60 ∧ ss < 60 then
                          some ⟨y, mo, d, hh, mi, ss, 0, none⟩
                        else none

/-- Abbreviated weekday names accepted by `%a` (C locale). -/
def weekdayAbbrevs : List String :=
  ["Mon", "Tue", "Wed", "Thu", "Fri", "Sat", "Sun"]

/-- Abbreviated month names accepted by `%b` (C locale), by number. -/
def monthAbbrev? (s : String) : Option Nat :=
  match ["Jan", "Feb", "Mar", "Apr", "May", "Jun", "Jul", "Aug", "Sep",
      "Oct", "Nov", "Dec"].indexOf? s with
  | some i => some (i + 1)
  | none => none

/-- Model of `datetime.strptime(s, "%a %b %d %H:%M:%S +0000 %Y")`, the
Twitter-native timestamp format handled by `TweetModel.parse_datetime`
(`src/utils/models.py` line 43). The `+0000` is matched literally, so the
result is a naive datetime. Name abbreviations are matched in their
standard capitalisation. -/
def strptimeTwitter (s : String) : Option PyDateTime :=
  match s.data with
  | w1 :: w2 :: w3 :: ' ' :: m1 :: m2 :: m3 :: ' ' :: rest =>
    if weekdayAbbrevs.contains ⟨[w1, w2, w3]⟩ then
      match monthAbbrev? ⟨[m1, m2, m3]⟩ with
      | none => none
      | some mo =>
        match parse2 rest with
        | none => none
        | some (d, r1) =>
          match expectChar ' ' r1 with
          | none => none
          | some r2 =>
            match parse2 r2 with
            | none => none
            | some (hh, r3) =>
              match expectChar ':' r3 with
              | none => none
              | some r4 =>
                match parse2 r4 with
                | none => none
                | some (mi, r5) =>
                  match expectChar ':' r5 with
                  | none => none
                  | some r6 =>
                    match parse2 r6 with
                    | none => none
                    | some (ss, r7) =>
                      match r7 with
                      | ' ' :: '+' :: '0' :: '0' :: '0' :: '0' :: ' ' :: r8 =>
                        match parse4 r8 with
                        | none => none
                        | some (y, r9) =>
                          if r9 = [] ∧ 1 ≤ y ∧ 1 ≤ mo ∧ mo ≤ 12 ∧ 1 ≤ d ∧
                              d ≤ daysInMonth y mo ∧ hh < 24 ∧ mi < 60 ∧ ss < 60 then
                            some ⟨y, mo, d, hh, mi, ss, 0, none⟩
                          else none
                      | _ => none
    else none
  | _ => none

/-! # Model of the JSON values flowing through the pipeline

All JSON objects the core produces or consumes (the extraction schema, the
parse-failure record, the tool-call arguments) are flat, so object fields
hold leaf values. Arrays and nested objects do not occur on these paths
and are not modelled. -/

/-- Leaf JSON value (floats modelled by rationals). -/
inductive JLeaf where
  | jnull
  | jbool (b : Bool)
  | jnum (q : ℚ)
  | jstr (s : String)
deriving DecidableEq

/-- JSON value: a leaf or a flat object. -/
inductive JVal where
  | jnull
  | jbool (b : Bool)
  | jnum (q : ℚ)
  | jstr (s : String)
  | jobj (fields : List (String × JLeaf))
deriving DecidableEq

/-- Lookup of a key in a flat JSON object (model of `d.get(k)` /
`k in d`). -/
def jLookup (fields : List (String × JLeaf)) (k : String) : Option JLeaf :=
  (fields.find? fun p => p.1 = k).map Prod.snd

/-- Model of Python truthiness of a JSON value (`if summary_data:`). -/
def jTruthy : JVal → Bool
  | .jnull => false
  | .jbool b => b
  | .jnum q => q ≠ 0
  | .jstr s => s ≠ ""
  | .jobj fields => fields ≠ []

/-! # Model of `src/utils/models.py` -/

/-- Mirror of the pydantic `SummaryModel` (`src/utils/models.py` lines
9-21). -/
structure SummaryModel where
  is_prediction : Bool
  token : Option String
  predicted_price : Option ℚ
  currency : Option String
  percent_change : Option ℚ
  direction : Option String
  timeframe : Option String
  deadline_utc : Option String
  current_price : Option ℚ
  image_analysis : Option String
  reason : Option String
  evidence : Option String
deriving DecidableEq

/-- Read an optional string field the way pydantic v1 accepts the values
this pipeline produces: absent or null gives `None`, a string is kept, any
other type is a validation error (numeric-to-string coercion does not
arise on these paths and is not modelled). -/
def jOptStr (fields : List (String × JLeaf)) (k : String) :
    Except String (Option String) :=
  match jLookup fields k with
  | none => .ok none
  | some .jnull => .ok none
  | some (.jstr s) => .ok (some s)
  | some _ => .error ("validation error: " ++ k)

/-- Read an optional float field (absent or null gives `None`). -/
def jOptNum (fields : List (String × JLeaf)) (k : String) :
    Except String (Option ℚ) :=
  match jLookup fields k with
  | none => .ok none
  | some .jnull => .ok none
  | some (.jnum q) => .ok (some q)
  | some _ => .error ("validation error: " ++ k)

/-- Model of `SummaryModel(**summary_data)`: pydantic v1 validation of the
summary dict. `is_prediction` is required (no default) and must be a
boolean; every other declared field is optional; undeclared keys are
ignored (pydantic v1 default `Extra.ignore`). A non-mapping argument is a
`TypeError`. Returns `.error` where Python raises. -/
def SummaryModel.validate (v : JVal) : Except String SummaryModel :=
  match v with
  | .jobj fields =>
    match jLookup fields "is_prediction" with
    | some (.jbool b) =>
      match jOptStr fields "token", jOptNum fields "predicted_price",
          jOptStr fields "currency", jOptNum fields "percent_change",
          jOptStr fields "direction", jOptStr fields "timeframe",
          jOptStr fields "deadline_utc", jOptNum fields "current_price",
          jOptStr fields "image_analysis", jOptStr fields "reason",
          jOptStr fields "evidence" with
      | .ok tok, .ok pp, .ok cur, .ok pc, .ok dir, .ok tf, .ok dl, .ok cp,
          .ok ia, .ok rs, .ok ev =>
        .ok ⟨b, tok, pp, cur, pc, dir, tf, dl, cp, ia, rs, ev⟩
      | _, _, _, _, _, _, _, _, _, _, _ =>
        .error "validation error: field type"
    | _ => .error "validation error: is_prediction field required"
  | _ => .error "TypeError: argument is not a mapping"

/-- Model of `TweetModel.parse_datetime` (`src/utils/models.py` lines
33-48) on a string or missing input: ISO (after `Z` replacement), then
`%Y-%m-%d %H:%M:%S`, then the Twitter-native format, then fall back to
`datetime.utcnow()` (passed in as `now`). -/
def TweetModel.parse_datetime (now : PyDateTime) (v : Option String) :
    PyDateTime :=
  match v with
  | none => now
  | some s =>
    match fromisoformat (replaceZ s) with
    | some dt => dt
    | none =>
      match strptimeSpace s with
      | some dt => dt
      | none =>
        match strptimeTwitter s with
        | some dt => dt
        | none => now

/-! # Model of `src/utils/mongo_service.py` -/

/-- The value stored under the `media_urls` key of a fetched tweet dict,
as discriminated by `save_tweet` (`src/utils/mongo_service.py` lines
173-183): a list of URL strings, a dict (whose own `media_urls` key is
read), or anything else. -/
inductive MediaVal where
  | mlist (urls : List String)
  | mdict (inner : Option (List String))
  | mother
deriving DecidableEq

/-- The tweet dict handed to `save_tweet` / the ingestion loop: each field
is the value of the corresponding key, `none` when the key is absent. -/
structure TweetData where
  id : Option String
  tweet_id : Option String
  text : Option String
  full_text : Option String
  created_at : Option String
  media_urls : Option MediaVal
  username : Option String
deriving DecidableEq

/-- A document of the `tweets` collection, as inserted by `save_tweet`
from a `TweetModel`. `oid` models the Mongo `_id`. -/
structure TweetRec where
  oid : Nat
  tweet_id : String
  account_name : String
  text : String
  attachments : List String
  created_at : PyDateTime
  summary : Option SummaryModel
  prediction : Bool
deriving DecidableEq

/-- Result of `save_tweet`, with the status strings the code returns. -/
inductive SaveResult where
  | created (oid : Nat)
  | existing (oid : Nat)
  | failed (err : String)
deriving DecidableEq

/-- The `status` field of the dict `save_tweet` returns. -/
def SaveResult.status : SaveResult → String
  | .created _ => "created"
  | .existing _ => "exists"
  | .failed _ => "failed"

/-- Result of `check_tweet_exists`, with its status strings. -/
inductive CheckResult where
  | found (oid : Nat)
  | not_found
deriving DecidableEq

/-- The `status` field of the dict `check_tweet_exists` returns. -/
def CheckResult.status : CheckResult → String
  | .found _ => "exists"
  | .not_found => "not_found"

/-- The keyed lookup both `save_tweet` and `check_tweet_exists` run:
`find_one({"account_name": account_key, "tweet_id": tweet_id})` over the
`tweets` collection in natural (insertion) order. -/
def find_tweet (db : List TweetRec) (key tid : String) : Option TweetRec :=
  db.find? fun r => r.account_name = key && r.tweet_id = tid

/-- Number of stored records carrying a given (account key, tweet id)
pair. -/
def count_key (db : List TweetRec) (key tid : String) : Nat :=
  (db.filter fun r => r.account_name = key && r.tweet_id = tid).length

/-- The identifier `save_tweet` computes on line 159:
`str(tweet_data.get("id") or tweet_data.get("tweet_id"))`. -/
def save_tweet_id (d : TweetData) : String :=
  pyStr (pyOr d.id d.tweet_id)

/-- The summary-argument handling of `save_tweet` (lines 186-190): a falsy
value is skipped, a string is passed to `json.loads` (modelled by the
`loads` argument), and the result is validated as a `SummaryModel`.
`.error` models an exception reaching the enclosing `except`. -/
def parse_summary_arg (loads : String → Except String JVal) :
    Option JVal → Except String (Option SummaryModel)
  | none => .ok none
  | some sv =>
    if jTruthy sv then
      match sv with
      | .jstr s => (loads s).bind (fun v => (SummaryModel.validate v).map some)
      | _ => (SummaryModel.validate sv).map some
    else .ok none

/-- The `created_at` normalisation of `save_tweet` (lines 192-206):
`fromisoformat` after `Z` replacement, then `strptime("%Y-%m-%d
%H:%M:%S")`, then fall back to `datetime.utcnow()` (passed in as `now`).
Note this chain, unlike `TweetModel.parse_datetime`, has no Twitter-native
branch: by the time `TweetModel` is constructed the value is already a
datetime, so the validator's string branches never run on this path. -/
def save_tweet_created_at (now : PyDateTime) (v : Option String) :
    PyDateTime :=
  match v with
  | none => now
  | some s =>
    match fromisoformat (replaceZ s) with
    | some dt => dt
    | none =>
      match strptimeSpace s with
      | some dt => dt
      | none => now

/-- The attachment extraction of `save_tweet` (lines 173-183). -/
def save_attachments (tweet_data : TweetData) : List String :=
  match tweet_data.media_urls with
  | some (.mdict inner) => inner.getD []
  | some (.mlist l) => l
  | some .mother => []
  | none => []

/-- The text selection of `save_tweet` (line 211):
`tweet_data.get("text") or tweet_data.get("full_text", "")`. -/
def save_text (tweet_data : TweetData) : String :=
  if truthyStr tweet_data.text then tweet_data.text.getD ""
  else tweet_data.full_text.getD ""

/-- The `TweetModel` document `save_tweet` builds and inserts (lines
208-224), given the fresh `_id` and the validated summary. -/
def tweet_record (oid : Nat) (now : PyDateTime) (account_name : String)
    (tweet_data : TweetData) (summary_obj : Option SummaryModel) : TweetRec :=
  ⟨oid, save_tweet_id tweet_data, pyLower account_name, save_text tweet_data,
    save_attachments tweet_data, save_tweet_created_at now tweet_data.created_at,
    summary_obj, (summary_obj.map SummaryModel.is_prediction).getD false⟩

/-- Model of `save_tweet` (`src/utils/mongo_service.py` lines 156-230).
The state is the `tweets` collection in insertion order; a fresh `_id` is
modelled by the collection size. `loads` models `json.loads`; `now`
models `datetime.utcnow()`. Any exception inside the body is caught and
reported as a "failed" result, leaving the collection unchanged. -/
def save_tweet (loads : String → Except String JVal) (now : PyDateTime)
    (db : List TweetRec) (account_name : String) (tweet_data : TweetData)
    (summary_data : Option JVal) : List TweetRec × SaveResult :=
  let tid := save_tweet_id tweet_data
  if tid = "" then
    (db, .failed "400: Tweet must contain id or tweet_id")
  else
    match find_tweet db (pyLower account_name) tid with
    | some r => (db, .existing r.oid)
    | none =>
      match parse_summary_arg loads summary_data with
      | .error e => (db, .failed e)
      | .ok summary_obj =>
        (db ++ [tweet_record db.length now account_name tweet_data summary_obj],
          .created db.length)

/-- Model of `check_tweet_exists` (`src/utils/mongo_service.py` lines
233-257): normalise the account key to lower case and run the keyed
lookup (`str(tweet_id)` is the identity on the string inputs the loop
passes). -/
def check_tweet_exists (db : List TweetRec) (account_name tweet_id : String) :
    CheckResult :=
  match find_tweet db (pyLower account_name) tweet_id with
  | some r => .found r.oid
  | none => .not_found

/-- The account-metadata dict handed to `save_account_info` (the X API
user object). -/
structure AccountData where
  name : Option String
  id : Option String
  created_at : Option String
  username : Option String
  profile_image_url : Option String
  verified : Option Bool
deriving DecidableEq

/-- A document of the `accounts` collection. `doc_id` models the Mongo
`_id`, which is the upsert filter key `save_account_info` uses. -/
structure AccountDoc where
  doc_id : String
  account_name : String
  name : Option String
  x_user_id : Option String
  username : String
  profile_image_url : Option String
  verified : Option Bool
  account_created_at : Option PyDateTime
deriving DecidableEq

/-- Model of `save_account_info` (`src/utils/mongo_service.py` lines
259-297): parse `created_at` if present (ignoring failures), build
`update_data` with the stripped and lowercased username in the
`account_name` and `username` fields, and `update_one` with upsert on the
filter `{"_id": account_data["username"]}` — note the raw, un-normalised
username in the filter. Direct indexing raises `KeyError` when the
`username` key is absent, modelled by `.error`. -/
def save_account_info (accounts : List AccountDoc)
    (account_data : AccountData) : Except String (List AccountDoc) :=
  match account_data.username with
  | none => .error "KeyError: username"
  | some raw_username =>
    let created_at_dt : Option PyDateTime :=
      match account_data.created_at with
      | none => none
      | some s =>
        if truthyStr (some s) then fromisoformat (replaceZ s) else none
    let uname := pyLower (pyStrip ((account_data.username).getD ""))
    if (accounts.find? fun a => a.doc_id = raw_username).isSome then
      .ok (accounts.map fun a =>
        if a.doc_id = raw_username then
          ⟨a.doc_id, uname, account_data.name, account_data.id, uname,
            account_data.profile_image_url, account_data.verified,
            match created_at_dt with
            | some dt => some dt
            | none => a.account_created_at⟩
        else a)
    else
      .ok (accounts ++ [⟨raw_username, uname, account_data.name,
        account_data.id, uname, account_data.profile_image_url,
        account_data.verified, created_at_dt⟩])

/-- The dedup-check-then-save sequence the ingestion loop runs for one
candidate post (`src/main.py` lines 78-86): `check_tweet_exists` on the
post id, skip when it reports "exists", otherwise `save_tweet` with the
extraction result. Returns the new collection and the reported status. -/
def dedup_check_then_save (loads : String → Except String JVal)
    (now : PyDateTime) (db : List TweetRec) (account : String) (pid : String)
    (tweet_data : TweetData) (summary_data : Option JVal) :
    List TweetRec × String :=
  match check_tweet_exists db account pid with
  | .found _ => (db, "exists")
  | .not_found =>
    let r := save_tweet loads now db account tweet_data summary_data
    (r.1, r.2.status)

/-! # Model of `src/utils/x_api.py` -/

/-- One price-endpoint HTTP exchange: a transport/HTTP/JSON failure
(`requests` exception, all caught by the providers), or a decoded flat
JSON dict whose numeric fields are listed (e.g. the `price` or `USD`
field when the provider knows the symbol). -/
inductive PriceResp where
  | err
  | ok (fields : List (String × ℚ))
deriving DecidableEq

/-- Numeric field lookup in a decoded price response. -/
def priceField (fields : List (String × ℚ)) (k : String) : Option ℚ :=
  (fields.find? fun p => p.1 = k).map Prod.snd

/-- Model of `get_token_price_cryptocompare` (`src/utils/x_api.py` lines
174-193): one request (keyed by the upper-cased symbol, which the `rsp`
environment receives), return the `USD` field if present, otherwise
`None`; any request failure gives `None`. -/
def get_token_price_cryptocompare (rsp : String → PriceResp)
    (symbol : String) : Option ℚ :=
  match rsp (pyUpper symbol) with
  | .err => none
  | .ok data => priceField data "USD"

/-- The alternate trading-pair loop of `get_token_price_binance` (lines
104-121): for each pair suffix in order, fetch `alt ++ pair`; a missing
`price` field moves to the next pair; a present one triggers the
cross-rate fetch of `pair ++ "USDT"` (every tried pair differs from
"USDT", so the conversion branch always runs) and the product is
returned; a missing conversion price moves on; a request failure aborts
the whole call with `None`. -/
def binance_alt_loop (query : String → PriceResp) (alt : String) :
    List String → Option ℚ
  | [] => none
  | pair :: rest =>
    match query (alt ++ pair) with
    | .err => none
    | .ok altData =>
      match priceField altData "price" with
      | none => binance_alt_loop query alt rest
      | some altPrice =>
        if pair = "USDT" then some altPrice
        else
          match query (pair ++ "USDT") with
          | .err => none
          | .ok convData =>
            match priceField convData "price" with
            | some convPrice => some (altPrice * convPrice)
            | none => binance_alt_loop query alt rest

/-- Model of `get_token_price_binance` (`src/utils/x_api.py` lines
83-131): primary lookup of `symbol.upper() + "USDT"`; if the response has
no `price` field, try the alternate pairs `BUSD`, `USDC`, `BTC` on the
symbol with `"USDT"` stripped; exceptions give `None`. -/
def get_token_price_binance (query : String → PriceResp) (symbol : String) :
    Option ℚ :=
  let sym := pyUpper symbol ++ "USDT"
  match query sym with
  | .err => none
  | .ok data =>
    match priceField data "price" with
    | some p => some p
    | none => binance_alt_loop query (removeUSDT sym) ["BUSD", "USDC", "BTC"]

/-- Decoded response of the CoinGecko per-id price endpoint:
`{coin_id: {"usd": price}}`. -/
inductive GeckoPriceResp where
  | err
  | ok (entries : List (String × List (String × ℚ)))
deriving DecidableEq

/-- Model of `get_token_price_gecko` (`src/utils/x_api.py` lines
133-172): fetch the coin list (pairs of symbol and id), find the first
coin whose symbol matches the lower-cased input, fetch its price dict and
return its `usd` entry; every failure path gives `None`. -/
def get_token_price_gecko (coins : Except Unit (List (String × String)))
    (price : String → GeckoPriceResp) (symbol : String) : Option ℚ :=
  let sym := pyLower symbol
  match coins with
  | .error _ => none
  | .ok cl =>
    match cl.find? fun c => pyLower c.1 = sym with
    | none => none
    | some c =>
      match price c.2 with
      | .err => none
      | .ok pd =>
        match (pd.find? fun e => e.1 = c.2).map Prod.snd with
        | none => none
        | some entry => (entry.find? fun e => e.1 = "usd").map Prod.snd

/-- The collaborating price providers, as one environment. -/
structure PriceEnv where
  cryptocompare : String → PriceResp
  binance : String → PriceResp
  gecko_coins : Except Unit (List (String × String))
  gecko_price : String → GeckoPriceResp

/-- Model of `get_token_price` (`src/utils/x_api.py` lines 195-218),
instrumented with the list of providers consulted, in order: try
CryptoCompare, then Binance, then CoinGecko; the first non-`None` price
wins. -/
def get_token_price_trace (env : PriceEnv) (symbol : String) :
    Option ℚ × List String :=
  match get_token_price_cryptocompare env.cryptocompare symbol with
  | some p => (some p, ["cryptocompare"])
  | none =>
    match get_token_price_binance env.binance symbol with
    | some p => (some p, ["cryptocompare", "binance"])
    | none =>
      match get_token_price_gecko env.gecko_coins env.gecko_price symbol with
      | some p => (some p, ["cryptocompare", "binance", "coingecko"])
      | none => (none, ["cryptocompare", "binance", "coingecko"])

/-- Model of `get_token_price`: the fallback chain without the
instrumentation. -/
def get_token_price (env : PriceEnv) (symbol : String) : Option ℚ :=
  (get_token_price_trace env symbol).1

/-- The two rate-limit headers the ingestion loop consumes, `none` when
the header is absent (integer values model the decimal header strings). -/
structure RateHeaders where
  remaining : Option Int
  reset : Option Int
deriving DecidableEq

/-- One `get_user_tweets` exchange: a failure (any exception, which the
function catches) or a tweet list with response headers. -/
inductive XResp where
  | err
  | ok (tweets : List TweetData) (headers : RateHeaders)

/-- Model of `get_user_tweets` (`src/utils/x_api.py` lines 37-80) at the
granularity the loop consumes: on success the annotated tweet list and
the response headers, on any failure the empty list and empty headers
(`return [], {}`). -/
def get_user_tweets (resp : XResp) : List TweetData × RateHeaders :=
  match resp with
  | .err => ([], ⟨none, none⟩)
  | .ok ts h => (ts, h)

/-- Model of `int(headers.get("x-rate-limit-remaining", 1))`
(`src/main.py` line 66). -/
def rate_remaining (h : RateHeaders) : Int :=
  h.remaining.getD 1

/-- Model of `int(headers.get("x-rate-limit-reset", time.time() + 900))`
(`src/main.py` line 67). -/
def rate_reset (now : Int) (h : RateHeaders) : Int :=
  h.reset.getD (now + 900)

/-! # Model of `src/utils/gpt_client.py` -/

/-- The `function` part of a model-requested tool call. -/
structure ToolCallFunction where
  name : String
  arguments : String
deriving DecidableEq

/-- A tool call requested by the model. -/
structure ToolCall where
  id : String
  function : ToolCallFunction
deriving DecidableEq

/-- One assistant message returned by a chat completion: optional text
content and the requested tool calls (the empty list models a falsy
`tool_calls`). -/
structure AssistantMessage where
  content : Option String
  tool_calls : List ToolCall
deriving DecidableEq

/-- A conversation message as `tweet_analysis` accumulates them. The
system-prompt text and the user-content formatting are not
claim-relevant, so the user message carries the tweet data itself. -/
inductive Msg where
  | system (content : String)
  | user (data : TweetData) (image_urls : List String)
  | assistant (tool_calls : List ToolCall)
  | tool (tool_call_id : String) (name : String) (content : String)
deriving DecidableEq

/-- The `tool_call_id` a tool message answers, `none` for other roles. -/
def Msg.toolCallId : Msg → Option String
  | .tool tid _ _ => some tid
  | _ => none

/-- Model of `create_gpt_messages` (`src/utils/gpt_client.py` lines
9-87): the fixed system prompt (text abridged — its content plays no role
in any claim) and one user message with the tweet data and its image
URLs. Iterating a dict-valued `media_urls` would yield its keys; that
path carries no URLs in this model. -/
def create_gpt_messages (data : TweetData) : List Msg :=
  [.system "influencer tweet analyzer instructions",
   .user data
     (match data.media_urls with
      | some (.mlist l) => l
      | _ => [])]

/-- The JSON text substituted for an empty model answer
(`src/utils/gpt_client.py` line 206). -/
def empty_response_fallback : String :=
  "\x7b\"is_prediction\": false, \"reason\": \"empty GPT response\"\x7d"

/-- The JSON value `json.loads` produces from
`empty_response_fallback`. -/
def empty_response_fallback_val : JVal :=
  .jobj [("is_prediction", .jbool false), ("reason", .jstr "empty GPT response")]

/-- Outcome of one `execute_tool_call` (`src/utils/gpt_client.py` lines
106-130): `.ok` carries the (tool_call_id, function name, content) fed
back to the model — including the "Error executing function: ..." content
produced when argument decoding or the price lookup throws a non-HTTP
exception; `.error` models the re-raised `HTTPException` of an unknown
function name (line 143 via lines 122-125). -/
def execute_tool_call (loads : String → Except String JVal)
    (priceOf : String → Option ℚ) (strOfFloat : ℚ → String)
    (tc : ToolCall) : Except String (String × String × String) :=
  match loads tc.function.arguments with
  | .error e =>
    .ok (tc.id, tc.function.name, "Error executing function: " ++ e)
  | .ok args =>
    if tc.function.name = "get_token_price" then
      match args with
      | .jobj fields =>
        match jLookup fields "symbol" with
        | some (.jstr sym) =>
          let result := priceOf sym
          .ok (tc.id, tc.function.name,
            match result with
            | some q => if q = 0 then "No data found." else strOfFloat q
            | none => "No data found.")
        | some _ =>
          .ok (tc.id, tc.function.name, "Error executing function: symbol type")
        | none =>
          .ok (tc.id, tc.function.name, "Error executing function: symbol")
      | _ =>
        .ok (tc.id, tc.function.name, "Error executing function: arguments")
    else .error ("400: Unknown function call: " ++ tc.function.name)

/-- The fan-out of `handle_tool_calls` (lines 148-170): every requested
call is executed and its result collected in request order; the first
re-raised `HTTPException` propagates (asyncio.gather) and is re-wrapped
as a 500 `HTTPException`. -/
def run_tool_calls (loads : String → Except String JVal)
    (priceOf : String → Option ℚ) (strOfFloat : ℚ → String) :
    List ToolCall → Except String (List (String × String × String))
  | [] => .ok []
  | tc :: rest =>
    match execute_tool_call loads priceOf strOfFloat tc with
    | .error e => .error ("500: Error processing function calls: " ++ e)
    | .ok r =>
      match run_tool_calls loads priceOf strOfFloat rest with
      | .error e => .error e
      | .ok rs => .ok (r :: rs)

/-- Result of `tweet_analysis`, instrumented: `value` is the returned
dict, `requests` the number of chat-completion requests issued, and
`followup_messages` the message list sent with the follow-up request
(`none` when no follow-up was issued). -/
structure AnalysisOut where
  value : JVal
  requests : Nat
  followup_messages : Option (List Msg)
deriving DecidableEq

/-- The response normalisation of `tweet_analysis` (lines 205-206): a
missing, empty or whitespace-only final answer is replaced by the fixed
fallback JSON. -/
def analysis_response (content : Option String) : String :=
  match content with
  | none => empty_response_fallback
  | some s => if pyStrip s = "" then empty_response_fallback else s

/-- The final-answer handling shared by both branches of `tweet_analysis`
(lines 205-212): normalise the answer, then `json.loads`; a parse failure
yields the raw-text diagnostic dict instead of raising. -/
def analysis_finish (loads : String → Except String JVal)
    (content : Option String) (requests : Nat)
    (followup : Option (List Msg)) : AnalysisOut :=
  match loads (analysis_response content) with
  | .ok v => ⟨v, requests, followup⟩
  | .error e =>
    ⟨.jobj [("raw_response", .jstr (analysis_response content)),
      ("parse_error", .jstr e)], requests, followup⟩

/-- Model of `tweet_analysis` (`src/utils/gpt_client.py` lines 173-216).
`resp n` is the assistant message answering the n-th chat-completion
request (the language-model collaborator); `priceOf` is the quote
adapter; `strOfFloat` models Python `str()` on the price. If the first
response requests tool calls, they are all executed, their results
appended as tool messages, and exactly one follow-up request is issued;
a re-raised `HTTPException` is caught by the outer handler, which
returns the error dict with no follow-up request. -/
def tweet_analysis (loads : String → Except String JVal)
    (priceOf : String → Option ℚ) (strOfFloat : ℚ → String)
    (resp : Nat → AssistantMessage) (data : TweetData) : AnalysisOut :=
  let messages := create_gpt_messages data
  let m0 := resp 0
  match m0.tool_calls with
  | [] => analysis_finish loads m0.content 1 none
  | tc :: tcs =>
    match run_tool_calls loads priceOf strOfFloat (tc :: tcs) with
    | .error e =>
      ⟨.jobj [("error", .jstr e), ("status", .jstr "failed")], 1, none⟩
    | .ok results =>
      let messages2 := messages ++ [.assistant (tc :: tcs)] ++
        results.map fun r => Msg.tool r.1 r.2.1 r.2.2
      analysis_finish loads (resp 1).content 2 (some messages2)

/-! # Model of the ingestion loop, `src/main.py` lines 46-100 -/

/-- Injective numeric code of a datetime's components. For the
uniform-offset, field-bounded datetimes the sort key produces (every
parsed X-API timestamp carries the `+00:00` offset obtained from the `Z`
suffix), Python datetime comparison agrees with comparison of these
codes. -/
def dtCode (d : PyDateTime) : Nat :=
  ((((((d.year * 13 + d.month) * 32 + d.day) * 24 + d.hour) * 60 +
    d.minute) * 60 + d.second)) * 1000000 + d.microsecond

/-- The sort key of `tweets.sort(...)` (`src/main.py` lines 70-75):
`datetime.fromisoformat(t["created_at"].replace("Z", "+00:00"))`, as a
numeric code; `none` models the `KeyError` / `ValueError` the key
function can raise. -/
def tweet_sort_key (t : TweetData) : Option Nat :=
  (t.created_at.map fun s => fromisoformat (replaceZ s)).bind
    (fun o => o.map dtCode)

/-- Model of `list.sort(key=..., reverse=True)`: stable sort, largest key
first. -/
def pySortDesc (key : TweetData → Nat) (l : List TweetData) :
    List TweetData :=
  List.insertionSort (fun a b => key b ≤ key a) l

/-- Observable events of one ingestion pass, in program order. -/
inductive Ev where
  | skip_invalid (uid : String)
  | fetch (uid : String)
  | tweet_exists (uname : String)
  | analyzed (uname : String)
  | saved (uname : String) (status : String)
  | account_error (uid : String)
  | sleep_rate (secs : Int)
  | sleep_batch (secs : Int)
deriving DecidableEq

/-- Whether an event belongs to the in-body processing of one account
(neither a provider fetch nor a sleep nor an invalid-ID skip). -/
def Ev.is_processing : Ev → Bool
  | .tweet_exists _ => true
  | .analyzed _ => true
  | .saved _ _ => true
  | .account_error _ => true
  | _ => false

/-- Whether an event is a suspension (a rate-limit or inter-batch
sleep). -/
def Ev.is_sleep : Ev → Bool
  | .sleep_rate _ => true
  | .sleep_batch _ => true
  | _ => false

/-- Outcome of processing one account's fetched tweet list. `completed`
records whether control fell through to the end of the `try` body: the
`continue` on the already-exists branch (`src/main.py` line 81) and an
exception caught by the per-account handler (line 94) both jump past
the rate-limit check at lines 89-92, so only a completed body reaches
the sleep. -/
structure BodyOut where
  db : List TweetRec
  events : List Ev
  candidate : Option TweetData
  completed : Bool
deriving DecidableEq

/-- The per-account tweet handling (`src/main.py` lines 69-86): when the
fetch returned tweets, sort them newest-first by parsed creation
timestamp, take the head as the only candidate, run the dedup check and,
for a new post, the Extractor (`analyze`, the `tweet_analysis`
collaborator) followed by `save_tweet`. An exception while sorting (an
unparseable or missing `created_at`) or a missing `username` / `id` key
on the candidate is caught by the loop's per-account handler: the
account is dropped for this pass with the collection unchanged, and —
like the `continue` taken when the newest post already exists — control
never reaches the trailing rate-limit check (`completed := false`). -/
def account_body (loads : String → Except String JVal)
    (analyze : TweetData → JVal) (now_dt : PyDateTime) (uid : String)
    (db : List TweetRec) (tweets : List TweetData) : BodyOut :=
  match tweets with
  | [] => ⟨db, [], none, true⟩
  | t0 :: trest =>
    if (t0 :: trest).all fun t => (tweet_sort_key t).isSome then
      match pySortDesc (fun t => (tweet_sort_key t).getD 0) (t0 :: trest) with
      | [] => ⟨db, [.account_error uid], none, false⟩
      | most_recent :: _ =>
        match most_recent.username, most_recent.id with
        | some uname, some tid =>
          match check_tweet_exists db uname tid with
          | .found _ => ⟨db, [.tweet_exists uname], some most_recent, false⟩
          | .not_found =>
            let summary := analyze most_recent
            let r := save_tweet loads now_dt db uname most_recent (some summary)
            ⟨r.1, [.analyzed uname, .saved uname r.2.status], some most_recent, true⟩
        | _, _ => ⟨db, [.account_error uid], some most_recent, false⟩
    else ⟨db, [.account_error uid], none, false⟩

/-- Model of Python `str(user_id).isdigit()`: non-empty and all digits. -/
def py_isdigit (s : String) : Bool :=
  s ≠ "" && s.data.all Char.isDigit

/-- One iteration of the inner account loop (`src/main.py` lines 56-95):
skip syntactically invalid IDs, fetch the account's tweets and rate-limit
headers, read the two headers with their defaults, process the tweets,
then — if the remaining budget is zero AND the body ran to completion —
sleep until the reported reset time. The sleep (lines 89-92) sits at the
end of the `try` body, so the `continue` taken when the newest post
already exists (line 81) and the per-account exception handler (line 94)
both skip it and the next account is fetched immediately. -/
def account_step (loads : String → Except String JVal)
    (analyze : TweetData → JVal) (now : Int) (now_dt : PyDateTime)
    (env : String → XResp) (db : List TweetRec) (uid : String) :
    List TweetRec × List Ev :=
  if uid = "" || !py_isdigit uid then
    (db, [.skip_invalid uid])
  else
    let fetched := get_user_tweets (env uid)
    let remaining := rate_remaining fetched.2
    let reset_time := rate_reset now fetched.2
    let body := account_body loads analyze now_dt uid db fetched.1
    (body.db, .fetch uid :: body.events ++
      (if remaining = 0 ∧ body.completed = true then
        [.sleep_rate (reset_time - now)] else []))

/-- One batch of the account loop, left to right. -/
def run_batch (loads : String → Except String JVal)
    (analyze : TweetData → JVal) (now : Int) (now_dt : PyDateTime)
    (env : String → XResp) (db : List TweetRec) :
    List String → List TweetRec × List Ev
  | [] => (db, [])
  | uid :: rest =>
    let s := account_step loads analyze now now_dt env db uid
    let r := run_batch loads analyze now now_dt env s.1 rest
    (r.1, s.2 ++ r.2)

/-- The batches `ids[i:i+BATCH_SIZE]` of the outer loop (BATCH_SIZE = 10),
with explicit fuel so the definition is structural. -/
def chunksAux {α : Type} : Nat → List α → List (List α)
  | 0, _ => []
  | _, [] => []
  | fuel + 1, l => l.take 10 :: chunksAux fuel (l.drop 10)

/-- The batch decomposition of the tracked-account ID list. -/
def chunks10 {α : Type} (l : List α) : List (List α) :=
  chunksAux l.length l

/-- The outer batch loop (`src/main.py` lines 53-100): run each batch and
sleep 900 seconds between consecutive batches (`if i + BATCH_SIZE <
len(ids)`), never after the last. -/
def run_batches (loads : String → Except String JVal)
    (analyze : TweetData → JVal) (now : Int) (now_dt : PyDateTime)
    (env : String → XResp) (db : List TweetRec) :
    List (List String) → List TweetRec × List Ev
  | [] => (db, [])
  | [b] => run_batch loads analyze now now_dt env db b
  | b :: b2 :: rest =>
    let r1 := run_batch loads analyze now now_dt env db b
    let r2 := run_batches loads analyze now now_dt env r1.1 (b2 :: rest)
    (r2.1, r1.2 ++ [.sleep_batch 900] ++ r2.2)

/-- Model of one `fetch_influencers_tweets` invocation (`src/main.py`
lines 46-100) over a given tracked-account ID list: the account universe
comes from `get_all_unique_x_influencers_ids`, the social source is
`env`, the Extractor is `analyze`, and the clock is frozen at `now`
(each `time.time()` call happens within the same second in this model). -/
def fetch_influencers_tweets (loads : String → Except String JVal)
    (analyze : TweetData → JVal) (now : Int) (now_dt : PyDateTime)
    (env : String → XResp) (db : List TweetRec) (ids : List String) :
    List TweetRec × List Ev :=
  run_batches loads analyze now now_dt env db (chunks10 ids)

/-! # Statement helpers: rendering timestamps in the accepted formats

These definitions build the textual timestamp shapes named by the
specification, for quantifying over "a timestamp in this format". -/

/-- The ASCII digit character of a value below ten. -/
def dChar (d : Nat) : Char := Char.ofNat (48 + d)

/-- Two-digit zero-padded rendering. -/
def pad2 (n : Nat) : List Char := [dChar (n / 10), dChar (n % 10)]

/-- Four-digit zero-padded rendering. -/
def pad4 (n : Nat) : List Char := pad2 (n / 100) ++ pad2 (n % 100)

/-- `YYYY-MM-DDTHH:MM:SSZ` — ISO-8601 with the `Z` zone suffix. -/
def renderIsoZ (y mo d hh mi ss : Nat) : String :=
  ⟨pad4 y ++ '-' :: pad2 mo ++ '-' :: pad2 d ++ 'T' :: pad2 hh ++
    ':' :: pad2 mi ++ ':' :: pad2 ss ++ ['Z']⟩

/-- `YYYY-MM-DD HH:MM:SS` — the space-separated date-time format. -/
def renderSpace (y mo d hh mi ss : Nat) : String :=
  ⟨pad4 y ++ '-' :: pad2 mo ++ '-' :: pad2 d ++ ' ' :: pad2 hh ++
    ':' :: pad2 mi ++ ':' :: pad2 ss⟩

/-! # Concrete environments used to instantiate hypotheses -/

/-- A fixed reference instant standing for `datetime.utcnow()`. -/
def nowDt0 : PyDateTime := ⟨2026, 1, 1, 0, 0, 0, 0, none⟩

/-- A concrete tool-call argument text. -/
def tool_args_btc : String := "\x7b\"symbol\": \"BTC\"\x7d"

/-- A concrete `json.loads` model that decodes the two fixed JSON texts
appearing in the code paths under test and rejects everything else. -/
def witness_loads : String → Except String JVal := fun s =>
  if s = empty_response_fallback then .ok empty_response_fallback_val
  else if s = tool_args_btc then .ok (.jobj [("symbol", .jstr "BTC")])
  else .error "Expecting value: line 1 column 1 (char 0)"

/-! # Shared lemmas about the Post Store -/

theorem find_tweet_append (db1 db2 : List TweetRec) (key tid : String) :
    find_tweet (db1 ++ db2) key tid =
      (find_tweet db1 key tid).or (find_tweet db2 key tid) :=
  List.find?_append

theorem count_key_zero_of_find_none {db : List TweetRec} {key tid : String}
    (h : find_tweet db key tid = none) : count_key db key tid = 0 := by
  simp only [find_tweet, List.find?_eq_none] at h
  simpa only [count_key, List.length_eq_zero] using List.filter_eq_nil_iff.mpr h

theorem count_key_append_one (db : List TweetRec) (r : TweetRec)
    (key tid : String) (hacc : r.account_name = key) (htid : r.tweet_id = tid) :
    count_key (db ++ [r]) key tid = count_key db key tid + 1 := by
  simp [count_key, List.filter_append, List.filter, hacc, htid]

theorem save_tweet_id_of_id {d : TweetData} {pid : String}
    (hpid : d.id = some pid) (hne : pid ≠ "") : save_tweet_id d = pid := by
  simp [save_tweet_id, pyOr, pyStr, truthyStr, hpid, hne]

theorem save_tweet_of_found (loads : String → Except String JVal)
    (now : PyDateTime) (db : List TweetRec) (acct : String) (d : TweetData)
    (summary : Option JVal) (r : TweetRec) (hne : save_tweet_id d ≠ "")
    (hf : find_tweet db (pyLower acct) (save_tweet_id d) = some r) :
    save_tweet loads now db acct d summary = (db, .existing r.oid) := by
  unfold save_tweet
  simp only [if_neg hne, hf]

theorem save_tweet_of_not_found (loads : String → Except String JVal)
    (now : PyDateTime) (db : List TweetRec) (acct : String) (d : TweetData)
    (summary : Option JVal) (so : Option SummaryModel)
    (hne : save_tweet_id d ≠ "")
    (habs : find_tweet db (pyLower acct) (save_tweet_id d) = none)
    (hsum : parse_summary_arg loads summary = .ok so) :
    save_tweet loads now db acct d summary =
      (db ++ [tweet_record db.length now acct d so], .created db.length) := by
  unfold save_tweet
  simp only [if_neg hne, habs, hsum]

theorem save_tweet_of_summary_error (loads : String → Except String JVal)
    (now : PyDateTime) (db : List TweetRec) (acct : String) (d : TweetData)
    (summary : Option JVal) (e : String) (hne : save_tweet_id d ≠ "")
    (habs : find_tweet db (pyLower acct) (save_tweet_id d) = none)
    (hsum : parse_summary_arg loads summary = .error e) :
    save_tweet loads now db acct d summary = (db, .failed e) := by
  unfold save_tweet
  simp only [if_neg hne, habs, hsum]

/-! # Claim C10 -/

/-- Claim C10, counterexample. The claim asserts the missing-identifier
rejection branch is unreachable for every input dict; but when the
`tweet_id` key holds the empty string (and `id` is falsy),
`str(tweet_data.get("id") or tweet_data.get("tweet_id"))` is the empty
string, so `save_tweet` does return the missing-identifier error (as a
"failed" result) and rejects the write. -/
theorem c10_counterexample :
    save_tweet witness_loads nowDt0 [] "alice"
        ⟨none, some "", none, none, none, none, none⟩ none =
      ([], .failed "400: Tweet must contain id or tweet_id") := by
  decide

/-- Claim C10, amended: `str(tweet_data.get("id") or
tweet_data.get("tweet_id"))` is falsy exactly when `id` is falsy and the
`tweet_id` key holds the empty string; in every other case — in
particular when both keys are absent, where the identifier is the literal
string "None" — the rejection branch is unreachable and, with no record
stored under the key "None", a record keyed by the string "None" is
inserted instead of the write being rejected. -/
theorem c10_amended (loads : String → Except String JVal) (now : PyDateTime)
    (db : List TweetRec) (acct : String) (d : TweetData)
    (hid : d.id = none) (htid : d.tweet_id = none)
    (habs : find_tweet db (pyLower acct) "None" = none) :
    (∀ d2 : TweetData,
      (save_tweet_id d2 = "" ↔ truthyStr d2.id = false ∧ d2.tweet_id = some "")) ∧
    save_tweet_id d = "None" ∧
    save_tweet loads now db acct d none =
      (db ++ [tweet_record db.length now acct d none], .created db.length) ∧
    (tweet_record db.length now acct d none).tweet_id = "None" := by
  have hids : save_tweet_id d = "None" := by
    simp [save_tweet_id, pyOr, pyStr, truthyStr, hid, htid]
  refine ⟨?_, hids, ?_, ?_⟩
  · intro d2
    rcases hd2 : d2.id with _ | s
    · rcases ht2 : d2.tweet_id with _ | t
      · simp [save_tweet_id, pyOr, pyStr, truthyStr, hd2, ht2]
      · by_cases hts : t = "" <;>
          simp [save_tweet_id, pyOr, pyStr, truthyStr, hd2, ht2, hts]
    · by_cases hs : s = ""
      · rcases ht2 : d2.tweet_id with _ | t
        · simp [save_tweet_id, pyOr, pyStr, truthyStr, hd2, ht2, hs]
        · by_cases hts : t = "" <;>
            simp [save_tweet_id, pyOr, pyStr, truthyStr, hd2, ht2, hs, hts]
      · simp [save_tweet_id, pyOr, pyStr, truthyStr, hd2, hs]
  · refine save_tweet_of_not_found loads now db acct d none none ?_ ?_ rfl
    · rw [hids]; decide
    · rw [hids]; exact habs
  · simp [tweet_record, hids]

/-- Claim C10, witness for the amended theorem at a concrete input. -/
theorem c10_witness :
    (∀ d2 : TweetData,
      (save_tweet_id d2 = "" ↔ truthyStr d2.id = false ∧ d2.tweet_id = some "")) ∧
    save_tweet_id ⟨none, none, none, none, none, none, none⟩ = "None" ∧
    save_tweet witness_loads nowDt0 [] "alice"
        ⟨none, none, none, none, none, none, none⟩ none =
      ([] ++ [tweet_record 0 nowDt0 "alice"
        ⟨none, none, none, none, none, none, none⟩ none], .created 0) ∧
    (tweet_record 0 nowDt0 "alice"
      ⟨none, none, none, none, none, none, none⟩ none).tweet_id = "None" :=
  c10_amended witness_loads nowDt0 [] "alice"
    ⟨none, none, none, none, none, none, none⟩ rfl rfl rfl

/-! # Claim C1 -/

/-- Claim C1, counterexample. The claim asserts `save_tweet` inserts iff
no record with the key is present; but with no record present and a
summary dict lacking the required `is_prediction` field — exactly the
dict `tweet_analysis` returns on a parse failure — `SummaryModel`
validation raises, `save_tweet` reports "failed", and nothing is
inserted. -/
theorem c1_counterexample :
    find_tweet [] "alice" "987" = none ∧
    save_tweet witness_loads nowDt0 [] "alice"
        ⟨some "987", none, none, none, none, none, none⟩
        (some (.jobj [("raw_response", .jstr "oops"), ("parse_error", .jstr "bad")])) =
      ([], .failed "validation error: is_prediction field required") := by
  exact ⟨rfl, by decide⟩

/-- Claim C1, amended: for a post with a truthy id and a summary argument
that validates (or is absent), the dedup-check-then-save sequence is
idempotent — starting from a store with no record under the (lowercased
account, post id) key, the first run inserts exactly one record and
reports "created", the second run reports "exists" and leaves the store
unchanged — and `save_tweet` inserts a record iff no record with that key
is already present. -/
theorem c1_amended (loads : String → Except String JVal) (now : PyDateTime)
    (db : List TweetRec) (acct pid : String) (d : TweetData)
    (summary : Option JVal) (so : Option SummaryModel)
    (hpid : d.id = some pid) (hne : pid ≠ "")
    (hsum : parse_summary_arg loads summary = .ok so)
    (habs : find_tweet db (pyLower acct) pid = none) :
    (dedup_check_then_save loads now db acct pid d summary).2 = "created" ∧
    (dedup_check_then_save loads now
      (dedup_check_then_save loads now db acct pid d summary).1
      acct pid d summary).2 = "exists" ∧
    (dedup_check_then_save loads now
      (dedup_check_then_save loads now db acct pid d summary).1
      acct pid d summary).1 =
      (dedup_check_then_save loads now db acct pid d summary).1 ∧
    count_key (dedup_check_then_save loads now db acct pid d summary).1
      (pyLower acct) pid = 1 ∧
    (∀ db2, find_tweet db2 (pyLower acct) pid = none →
      save_tweet loads now db2 acct d summary =
        (db2 ++ [tweet_record db2.length now acct d so], .created db2.length)) ∧
    (∀ db2 r, find_tweet db2 (pyLower acct) pid = some r →
      save_tweet loads now db2 acct d summary = (db2, .existing r.oid)) := by
  have hids : save_tweet_id d = pid := save_tweet_id_of_id hpid hne
  have hinsert : ∀ db2 : List TweetRec, find_tweet db2 (pyLower acct) pid = none →
      save_tweet loads now db2 acct d summary =
        (db2 ++ [tweet_record db2.length now acct d so], .created db2.length) := by
    intro db2 h2
    exact save_tweet_of_not_found loads now db2 acct d summary so
      (hids ▸ hne) (hids ▸ h2) hsum
  have hskip : ∀ (db2 : List TweetRec) (r : TweetRec),
      find_tweet db2 (pyLower acct) pid = some r →
      save_tweet loads now db2 acct d summary = (db2, .existing r.oid) := by
    intro db2 r h2
    exact save_tweet_of_found loads now db2 acct d summary r (hids ▸ hne) (hids ▸ h2)
  have hrec_acc : (tweet_record db.length now acct d so).account_name = pyLower acct := rfl
  have hrec_tid : (tweet_record db.length now acct d so).tweet_id = pid := hids
  have hstep1 : dedup_check_then_save loads now db acct pid d summary =
      (db ++ [tweet_record db.length now acct d so], "created") := by
    unfold dedup_check_then_save check_tweet_exists
    simp only [habs, hinsert db habs, SaveResult.status]
  have hfind2 : find_tweet (db ++ [tweet_record db.length now acct d so])
      (pyLower acct) pid = some (tweet_record db.length now acct d so) := by
    rw [find_tweet_append, habs, Option.none_or]
    simp [find_tweet, List.find?, hrec_acc, hrec_tid]
  have hstep2 : dedup_check_then_save loads now
      (db ++ [tweet_record db.length now acct d so]) acct pid d summary =
      (db ++ [tweet_record db.length now acct d so], "exists") := by
    unfold dedup_check_then_save check_tweet_exists
    simp only [hfind2]
  refine ⟨by rw [hstep1], ?_, ?_, ?_, hinsert, hskip⟩
  · rw [hstep1]; simp only [hstep2]
  · rw [hstep1]; simp only [hstep2]
  · rw [hstep1]
    have := count_key_append_one db (tweet_record db.length now acct d so)
      (pyLower acct) pid hrec_acc hrec_tid
    rw [this, count_key_zero_of_find_none habs]

/-- Claim C1, witness for the amended theorem at a concrete input. -/
theorem c1_witness :
    (dedup_check_then_save witness_loads nowDt0 [] "Alice" "987"
      ⟨some "987", none, none, none, none, none, none⟩ none).2 = "created" ∧
    (dedup_check_then_save witness_loads nowDt0
      (dedup_check_then_save witness_loads nowDt0 [] "Alice" "987"
        ⟨some "987", none, none, none, none, none, none⟩ none).1
      "Alice" "987" ⟨some "987", none, none, none, none, none, none⟩ none).2 = "exists" ∧
    (dedup_check_then_save witness_loads nowDt0
      (dedup_check_then_save witness_loads nowDt0 [] "Alice" "987"
        ⟨some "987", none, none, none, none, none, none⟩ none).1
      "Alice" "987" ⟨some "987", none, none, none, none, none, none⟩ none).1 =
      (dedup_check_then_save witness_loads nowDt0 [] "Alice" "987"
        ⟨some "987", none, none, none, none, none, none⟩ none).1 ∧
    count_key (dedup_check_then_save witness_loads nowDt0 [] "Alice" "987"
      ⟨some "987", none, none, none, none, none, none⟩ none).1
      (pyLower "Alice") "987" = 1 ∧
    (∀ db2, find_tweet db2 (pyLower "Alice") "987" = none →
      save_tweet witness_loads nowDt0 db2 "Alice"
          ⟨some "987", none, none, none, none, none, none⟩ none =
        (db2 ++ [tweet_record db2.length nowDt0 "Alice"
          ⟨some "987", none, none, none, none, none, none⟩ none], .created db2.length)) ∧
    (∀ db2 r, find_tweet db2 (pyLower "Alice") "987" = some r →
      save_tweet witness_loads nowDt0 db2 "Alice"
          ⟨some "987", none, none, none, none, none, none⟩ none = (db2, .existing r.oid)) :=
  c1_amended witness_loads nowDt0 [] "Alice" "987"
    ⟨some "987", none, none, none, none, none, none⟩ none none
    rfl (by decide) rfl rfl

/-! # Claim C9 -/

/-- Claim C9, counterexample. The claim asserts the canonical handle
stored as the tracked account's unique key equals the lowercase of the
input username; but `save_account_info` upserts on the filter
`{"_id": account_data["username"]}` with the raw username, so for input
"Alice" the stored unique key is "Alice", not "alice" (only the
`account_name` / `username` fields are lowercased). -/
theorem c9_counterexample :
    save_account_info [] ⟨none, none, none, some "Alice", none, none⟩ =
      .ok [⟨"Alice", "alice", none, none, "alice", none, none, none⟩] ∧
    ("Alice" : String) ≠ pyLower "Alice" := by
  constructor
  · rfl
  · decide

/-- Claim C9, amended: every document `save_account_info` writes (fresh
or updated) carries the lowercased, stripped username in its
`account_name` and `username` fields, but its unique `_id` key is the
raw username as given; a freshly inserted tracked account has `_id`
equal to the raw username; `check_tweet_exists` looks posts up under the
lowercased account handle, and every post record `save_tweet` writes
carries the lowercased account handle. -/
theorem c9_amended (accounts : List AccountDoc) (ad : AccountData)
    (raw : String) (out : List AccountDoc)
    (hu : ad.username = some raw)
    (hout : save_account_info accounts ad = .ok out) :
    (∀ a ∈ out, a ∈ accounts ∨
      (a.account_name = pyLower (pyStrip raw) ∧ a.username = pyLower (pyStrip raw))) ∧
    ((accounts.find? fun a => a.doc_id = raw).isSome = false →
      ∃ doc, out = accounts ++ [doc] ∧ doc.doc_id = raw ∧
        doc.account_name = pyLower (pyStrip raw) ∧
        doc.username = pyLower (pyStrip raw)) ∧
    (∀ (db : List TweetRec) (a t : String), check_tweet_exists db a t =
      match find_tweet db (pyLower a) t with
      | some r => CheckResult.found r.oid
      | none => CheckResult.not_found) ∧
    (∀ (loads : String → Except String JVal) (now : PyDateTime)
        (db : List TweetRec) (acct : String) (d : TweetData)
        (sum : Option JVal),
      ∀ r ∈ (save_tweet loads now db acct d sum).1,
        r ∈ db ∨ r.account_name = pyLower acct) := by
  have hsave : ∀ (loads : String → Except String JVal) (now : PyDateTime)
      (db : List TweetRec) (acct : String) (d : TweetData)
      (sum : Option JVal),
      ∀ r ∈ (save_tweet loads now db acct d sum).1,
        r ∈ db ∨ r.account_name = pyLower acct := by
    intro loads now db acct d sum r hr
    unfold save_tweet at hr
    by_cases h0 : save_tweet_id d = ""
    · rw [if_pos h0] at hr; exact .inl hr
    · rw [if_neg h0] at hr
      rcases hf : find_tweet db (pyLower acct) (save_tweet_id d) with _ | r2
      · rw [hf] at hr
        rcases hp : parse_summary_arg loads sum with e | so
        · rw [hp] at hr; exact .inl hr
        · rw [hp] at hr
          simp only [List.mem_append, List.mem_singleton] at hr
          rcases hr with hr | hr
          · exact .inl hr
          · exact .inr (by rw [hr]; rfl)
      · rw [hf] at hr; exact .inl hr
  unfold save_account_info at hout
  rw [hu] at hout
  simp only [Option.getD_some] at hout
  by_cases hfind : (accounts.find? fun a => a.doc_id = raw).isSome = true
  · rw [if_pos hfind] at hout
    simp only [Except.ok.injEq] at hout
    refine ⟨?_, ?_, fun db a t => rfl, hsave⟩
    · intro a ha
      rw [← hout] at ha
      simp only [List.mem_map] at ha
      rcases ha with ⟨b, hb, hfb⟩
      by_cases hid : b.doc_id = raw
      · right
        rw [← hfb, if_pos hid]
        exact ⟨rfl, rfl⟩
      · left
        rw [← hfb, if_neg hid]
        exact hb
    · intro hno
      rw [hfind] at hno
      cases hno
  · rw [if_neg hfind] at hout
    simp only [Except.ok.injEq] at hout
    refine ⟨?_, ?_, fun db a t => rfl, hsave⟩
    · intro a ha
      rw [← hout] at ha
      simp only [List.mem_append, List.mem_singleton] at ha
      rcases ha with ha | ha
      · exact .inl ha
      · right
        rw [ha]
        exact ⟨rfl, rfl⟩
    · intro _
      exact ⟨_, hout.symm, rfl, rfl, rfl⟩

/-- Claim C9, witness for the amended theorem at a concrete input (a
username with mixed case and surrounding whitespace). -/
theorem c9_witness :
    (∀ a ∈ [(⟨" Bob ", "bob", none, none, "bob", none, none, none⟩ : AccountDoc)],
      a ∈ ([] : List AccountDoc) ∨
      (a.account_name = pyLower (pyStrip " Bob ") ∧
        a.username = pyLower (pyStrip " Bob "))) ∧
    ((([] : List AccountDoc).find? fun a => a.doc_id = " Bob ").isSome = false →
      ∃ doc, [(⟨" Bob ", "bob", none, none, "bob", none, none, none⟩ : AccountDoc)] =
          [] ++ [doc] ∧ doc.doc_id = " Bob " ∧
        doc.account_name = pyLower (pyStrip " Bob ") ∧
        doc.username = pyLower (pyStrip " Bob ")) ∧
    (∀ (db : List TweetRec) (a t : String), check_tweet_exists db a t =
      match find_tweet db (pyLower a) t with
      | some r => CheckResult.found r.oid
      | none => CheckResult.not_found) ∧
    (∀ (loads : String → Except String JVal) (now : PyDateTime)
        (db : List TweetRec) (acct : String) (d : TweetData)
        (sum : Option JVal),
      ∀ r ∈ (save_tweet loads now db acct d sum).1,
        r ∈ db ∨ r.account_name = pyLower acct) :=
  c9_amended [] ⟨none, none, none, some " Bob ", none, none⟩ " Bob "
    [⟨" Bob ", "bob", none, none, "bob", none, none, none⟩] rfl rfl

/-! # Claim C4 -/

/-- Claim C4 (confirmed): `get_token_price` tries the providers in the
fixed priority order CryptoCompare, Binance, CoinGecko, each at most once
per call (the consulted-provider trace is always a prefix of that fixed
sequence); the first provider returning a numeric price wins; Binance may
fall back from its primary USDT pair to the fixed alternate quote pairs
BUSD/USDC/BTC with one cross-rate conversion through the pair's USDT
quote; and when every provider fails the call returns `None` without
raising (the embedding is total, every exception being caught in the
source). -/
theorem c4_price_fallback_chain (env : PriceEnv) (s : String)
    (hcc : get_token_price_cryptocompare env.cryptocompare s = none)
    (hb : get_token_price_binance env.binance s = none)
    (hg : get_token_price_gecko env.gecko_coins env.gecko_price s = none) :
    get_token_price env s = none ∧
    (∀ (env2 : PriceEnv) (s2 : String),
      (get_token_price_trace env2 s2).2 ∈
        [["cryptocompare"], ["cryptocompare", "binance"],
         ["cryptocompare", "binance", "coingecko"]]) ∧
    (∀ (env2 : PriceEnv) (s2 : String) (p : ℚ),
      get_token_price_cryptocompare env2.cryptocompare s2 = some p →
      get_token_price env2 s2 = some p) ∧
    (∀ (env2 : PriceEnv) (s2 : String) (p : ℚ),
      get_token_price_cryptocompare env2.cryptocompare s2 = none →
      get_token_price_binance env2.binance s2 = some p →
      get_token_price env2 s2 = some p) ∧
    (∀ (env2 : PriceEnv) (s2 : String),
      get_token_price_cryptocompare env2.cryptocompare s2 = none →
      get_token_price_binance env2.binance s2 = none →
      get_token_price env2 s2 =
        get_token_price_gecko env2.gecko_coins env2.gecko_price s2) ∧
    (∀ (query : String → PriceResp) (s2 : String) (d1 da dc : List (String × ℚ))
        (ap cp : ℚ),
      query (pyUpper s2 ++ "USDT") = .ok d1 →
      priceField d1 "price" = none →
      query (removeUSDT (pyUpper s2 ++ "USDT") ++ "BUSD") = .ok da →
      priceField da "price" = some ap →
      query "BUSDUSDT" = .ok dc →
      priceField dc "price" = some cp →
      get_token_price_binance query s2 = some (ap * cp)) := by
  refine ⟨?_, ?_, ?_, ?_, ?_, ?_⟩
  · unfold get_token_price get_token_price_trace
    simp only [hcc, hb, hg]
  · intro env2 s2
    unfold get_token_price_trace
    rcases get_token_price_cryptocompare env2.cryptocompare s2 with _ | p
    · rcases get_token_price_binance env2.binance s2 with _ | p
      · rcases get_token_price_gecko env2.gecko_coins env2.gecko_price s2 with _ | p
        · simp
        · simp
      · simp
    · simp
  · intro env2 s2 p h
    unfold get_token_price get_token_price_trace
    simp only [h]
  · intro env2 s2 p h1 h2
    unfold get_token_price get_token_price_trace
    simp only [h1, h2]
  · intro env2 s2 h1 h2
    unfold get_token_price get_token_price_trace
    simp only [h1, h2]
    rcases get_token_price_gecko env2.gecko_coins env2.gecko_price s2 with _ | p
    · rfl
    · rfl
  · intro query s2 d1 da dc ap cp h1 h2 h3 h4 h5 h6
    have h5b : query ("BUSD" ++ "USDT") = .ok dc := h5
    have hne : ("BUSD" : String) ≠ "USDT" := by decide
    unfold get_token_price_binance binance_alt_loop
    simp only [h1, h2, h3, h4, if_neg hne, h5b, h6]

/-- Claim C4, witness: a concrete environment where every provider fails
(plus, for the conjuncts with their own hypotheses, the theorem applied
at that same environment). -/
theorem c4_witness :
    get_token_price
        ⟨fun _ => .err, fun _ => .err, .error (), fun _ => .err⟩ "ZZZ" = none ∧
    (∀ (env2 : PriceEnv) (s2 : String),
      (get_token_price_trace env2 s2).2 ∈
        [["cryptocompare"], ["cryptocompare", "binance"],
         ["cryptocompare", "binance", "coingecko"]]) ∧
    (∀ (env2 : PriceEnv) (s2 : String) (p : ℚ),
      get_token_price_cryptocompare env2.cryptocompare s2 = some p →
      get_token_price env2 s2 = some p) ∧
    (∀ (env2 : PriceEnv) (s2 : String) (p : ℚ),
      get_token_price_cryptocompare env2.cryptocompare s2 = none →
      get_token_price_binance env2.binance s2 = some p →
      get_token_price env2 s2 = some p) ∧
    (∀ (env2 : PriceEnv) (s2 : String),
      get_token_price_cryptocompare env2.cryptocompare s2 = none →
      get_token_price_binance env2.binance s2 = none →
      get_token_price env2 s2 =
        get_token_price_gecko env2.gecko_coins env2.gecko_price s2) ∧
    (∀ (query : String → PriceResp) (s2 : String) (d1 da dc : List (String × ℚ))
        (ap cp : ℚ),
      query (pyUpper s2 ++ "USDT") = .ok d1 →
      priceField d1 "price" = none →
      query (removeUSDT (pyUpper s2 ++ "USDT") ++ "BUSD") = .ok da →
      priceField da "price" = some ap →
      query "BUSDUSDT" = .ok dc →
      priceField dc "price" = some cp →
      get_token_price_binance query s2 = some (ap * cp)) :=
  c4_price_fallback_chain
    ⟨fun _ => .err, fun _ => .err, .error (), fun _ => .err⟩ "ZZZ"
    rfl rfl rfl

/-! # Claim C8 -/

/-- Claim C8 (confirmed): when a rate-limit header is absent — in
particular when a failed fetch returns the empty header dict — the
values the loop consumes default to a remaining budget of 1 and a reset
time of now plus 900 seconds (the default cool-down window), so a
missing header is never read as an unlimited budget. -/
theorem c8_missing_header_defaults (now : Int) (h : RateHeaders)
    (hrem : h.remaining = none) (hres : h.reset = none) :
    rate_remaining h = 1 ∧ rate_reset now h = now + 900 ∧
    rate_remaining (get_user_tweets .err).2 = 1 ∧
    rate_reset now (get_user_tweets .err).2 = now + 900 := by
  refine ⟨?_, ?_, rfl, rfl⟩
  · simp [rate_remaining, hrem]
  · simp [rate_reset, hres]

/-- Claim C8, witness at the empty header dict. -/
theorem c8_witness :
    rate_remaining ⟨none, none⟩ = 1 ∧ rate_reset 1000 ⟨none, none⟩ = 1000 + 900 ∧
    rate_remaining (get_user_tweets .err).2 = 1 ∧
    rate_reset 1000 (get_user_tweets .err).2 = 1000 + 900 :=
  c8_missing_header_defaults 1000 ⟨none, none⟩ rfl rfl

/-! # Claim C2 -/

/-- Claim C2, counterexample. When the final model answer fails to parse,
`tweet_analysis` does return (without raising) the diagnostic dict
carrying the raw text — but that dict lacks the required `is_prediction`
field, so the subsequent `save_tweet` fails `SummaryModel` validation and
the post is dropped with status "failed" instead of being persisted. -/
theorem c2_counterexample :
    (tweet_analysis witness_loads (fun _ => none) (fun _ => "")
        (fun _ => ⟨some "not json", []⟩)
        ⟨some "987", none, none, none, none, none, none⟩).value =
      .jobj [("raw_response", .jstr "not json"),
             ("parse_error", .jstr "Expecting value: line 1 column 1 (char 0)")] ∧
    save_tweet witness_loads nowDt0 [] "alice"
        ⟨some "987", none, none, none, none, none, none⟩
        (some (.jobj [("raw_response", .jstr "not json"),
          ("parse_error", .jstr "Expecting value: line 1 column 1 (char 0)")])) =
      ([], .failed "validation error: is_prediction field required") := by
  exact ⟨by decide, by decide⟩

/-- Claim C2, amended: `tweet_analysis` never raises on an empty or
unparseable final answer. An empty (or whitespace-only, or missing)
answer is replaced by the fixed fallback JSON, producing a result with
prediction flag false and a rationale recording the empty response, and
that result is persisted by `save_tweet` as a non-prediction record. An
answer that fails to parse produces the diagnostic dict carrying the raw
text and the parse error — with no prediction flag at all — and passing
that dict to `save_tweet` fails `SummaryModel` validation, so the post
is dropped with a "failed" status rather than persisted. -/
theorem c2_amended (loads : String → Except String JVal)
    (priceOf : String → Option ℚ) (strOfFloat : ℚ → String)
    (resp : Nat → AssistantMessage) (data : TweetData) (c e : String)
    (htc : (resp 0).tool_calls = [])
    (hcontent : (resp 0).content = some c)
    (hne : pyStrip c ≠ "")
    (hparse : loads c = .error e)
    (hfb : loads empty_response_fallback = .ok empty_response_fallback_val) :
    tweet_analysis loads priceOf strOfFloat resp data =
      ⟨.jobj [("raw_response", .jstr c), ("parse_error", .jstr e)], 1, none⟩ ∧
    (∀ (now : PyDateTime) (db : List TweetRec) (acct : String) (d : TweetData),
      save_tweet_id d ≠ "" →
      find_tweet db (pyLower acct) (save_tweet_id d) = none →
      save_tweet loads now db acct d
          (some (.jobj [("raw_response", .jstr c), ("parse_error", .jstr e)])) =
        (db, .failed "validation error: is_prediction field required")) ∧
    (∀ resp2 : Nat → AssistantMessage, (resp2 0).tool_calls = [] →
      ((resp2 0).content = none ∨ (resp2 0).content = some "") →
      tweet_analysis loads priceOf strOfFloat resp2 data =
        ⟨empty_response_fallback_val, 1, none⟩) ∧
    (∀ (now : PyDateTime) (db : List TweetRec) (acct : String) (d : TweetData),
      save_tweet_id d ≠ "" →
      find_tweet db (pyLower acct) (save_tweet_id d) = none →
      save_tweet loads now db acct d (some empty_response_fallback_val) =
        (db ++ [tweet_record db.length now acct d
          (some ⟨false, none, none, none, none, none, none, none, none, none,
            some "empty GPT response", none⟩)], .created db.length) ∧
      (tweet_record db.length now acct d
        (some ⟨false, none, none, none, none, none, none, none, none, none,
          some "empty GPT response", none⟩)).prediction = false) := by
  have hresp : analysis_response (some c) = c := by
    unfold analysis_response
    simp only [if_neg hne]
  refine ⟨?_, ?_, ?_, ?_⟩
  · unfold tweet_analysis
    simp only [htc]
    unfold analysis_finish
    simp only [hcontent, hresp, hparse]
  · intro now db acct d h0 h1
    refine save_tweet_of_summary_error loads now db acct d _ _ h0 h1 ?_
    rfl
  · intro resp2 htc2 hc2
    have hresp2 : analysis_response (resp2 0).content = empty_response_fallback := by
      rcases hc2 with hc2 | hc2 <;> rw [hc2] <;> rfl
    unfold tweet_analysis
    simp only [htc2]
    unfold analysis_finish
    simp only [hresp2, hfb]
  · intro now db acct d h0 h1
    refine ⟨save_tweet_of_not_found loads now db acct d _ _ h0 h1 ?_, rfl⟩
    rfl

/-- Claim C2, witness for the amended theorem at a concrete input. -/
theorem c2_witness :
    tweet_analysis witness_loads (fun _ => none) (fun _ => "")
        (fun _ => ⟨some "oops", []⟩) ⟨some "1", none, none, none, none, none, none⟩ =
      ⟨.jobj [("raw_response", .jstr "oops"),
        ("parse_error", .jstr "Expecting value: line 1 column 1 (char 0)")], 1, none⟩ ∧
    (∀ (now : PyDateTime) (db : List TweetRec) (acct : String) (d : TweetData),
      save_tweet_id d ≠ "" →
      find_tweet db (pyLower acct) (save_tweet_id d) = none →
      save_tweet witness_loads now db acct d
          (some (.jobj [("raw_response", .jstr "oops"),
            ("parse_error", .jstr "Expecting value: line 1 column 1 (char 0)")])) =
        (db, .failed "validation error: is_prediction field required")) ∧
    (∀ resp2 : Nat → AssistantMessage, (resp2 0).tool_calls = [] →
      ((resp2 0).content = none ∨ (resp2 0).content = some "") →
      tweet_analysis witness_loads (fun _ => none) (fun _ => "") resp2
          ⟨some "1", none, none, none, none, none, none⟩ =
        ⟨empty_response_fallback_val, 1, none⟩) ∧
    (∀ (now : PyDateTime) (db : List TweetRec) (acct : String) (d : TweetData),
      save_tweet_id d ≠ "" →
      find_tweet db (pyLower acct) (save_tweet_id d) = none →
      save_tweet witness_loads now db acct d (some empty_response_fallback_val) =
        (db ++ [tweet_record db.length now acct d
          (some ⟨false, none, none, none, none, none, none, none, none, none,
            some "empty GPT response", none⟩)], .created db.length) ∧
      (tweet_record db.length now acct d
        (some ⟨false, none, none, none, none, none, none, none, none, none,
          some "empty GPT response", none⟩)).prediction = false) :=
  c2_amended witness_loads (fun _ => none) (fun _ => "")
    (fun _ => ⟨some "oops", []⟩) ⟨some "1", none, none, none, none, none, none⟩
    "oops" "Expecting value: line 1 column 1 (char 0)"
    rfl rfl (by decide) rfl rfl


/-! # Claim C3 -/

theorem analysis_finish_requests (loads : String → Except String JVal)
    (c : Option String) (n : Nat) (f : Option (List Msg)) :
    (analysis_finish loads c n f).requests = n := by
  unfold analysis_finish
  rcases loads (analysis_response c) with e | v
  · rfl
  · rfl

theorem analysis_finish_followup (loads : String → Except String JVal)
    (c : Option String) (n : Nat) (f : Option (List Msg)) :
    (analysis_finish loads c n f).followup_messages = f := by
  unfold analysis_finish
  rcases loads (analysis_response c) with e | v
  · rfl
  · rfl

theorem run_tool_calls_ok_of_known (loads : String → Except String JVal)
    (priceOf : String → Option ℚ) (strOfFloat : ℚ → String)
    (tcs : List ToolCall)
    (h : ∀ tc ∈ tcs, tc.function.name = "get_token_price") :
    ∃ results, run_tool_calls loads priceOf strOfFloat tcs = .ok results ∧
      results.map (fun r => r.1) = tcs.map (fun tc => tc.id) := by
  induction tcs with
  | nil => exact ⟨[], rfl, rfl⟩
  | cons tc rest ih =>
    obtain ⟨results, hr, hm⟩ := ih fun x hx => h x (List.mem_cons_of_mem _ hx)
    have hname := h tc (List.mem_cons_self _ _)
    have hexec : ∃ r, execute_tool_call loads priceOf strOfFloat tc = .ok r ∧
        r.1 = tc.id := by
      unfold execute_tool_call
      rcases hargs : loads tc.function.arguments with e | args
      · exact ⟨_, rfl, rfl⟩
      · simp only [if_pos hname]
        rcases args with _ | b | q | s | fields
        · exact ⟨_, rfl, rfl⟩
        · exact ⟨_, rfl, rfl⟩
        · exact ⟨_, rfl, rfl⟩
        · exact ⟨_, rfl, rfl⟩
        · rcases hl : jLookup fields "symbol" with _ | leaf
          · simp only [hl]
            exact ⟨_, rfl, rfl⟩
          · rcases leaf with _ | b | q | sym <;> simp only [hl]
            · exact ⟨_, rfl, rfl⟩
            · exact ⟨_, rfl, rfl⟩
            · exact ⟨_, rfl, rfl⟩
            · exact ⟨_, rfl, rfl⟩
    obtain ⟨r, hre, hrid⟩ := hexec
    refine ⟨r :: results, ?_, ?_⟩
    · unfold run_tool_calls
      simp only [hre, hr]
    · simp [hm, hrid]

/-- Claim C3, counterexample. The claim asserts that whenever the first
model response requests tool calls, all requested calls are executed and
exactly one follow-up model request is issued; but when a requested call
(with well-formed arguments) names an unknown function, the dispatcher
raises an `HTTPException` that propagates through the gather, so the
Extractor returns the error dict after a single model request and no
follow-up is ever issued. -/
theorem c3_counterexample :
    (tweet_analysis witness_loads (fun _ => none) (fun _ => "")
        (fun n => match n with
          | 0 => ⟨none, [⟨"call1", ⟨"transfer_funds", tool_args_btc⟩⟩]⟩
          | _ => ⟨some "x", []⟩)
        ⟨some "1", none, none, none, none, none, none⟩).requests = 1 ∧
    (tweet_analysis witness_loads (fun _ => none) (fun _ => "")
        (fun n => match n with
          | 0 => ⟨none, [⟨"call1", ⟨"transfer_funds", tool_args_btc⟩⟩]⟩
          | _ => ⟨some "x", []⟩)
        ⟨some "1", none, none, none, none, none, none⟩).followup_messages = none := by
  exact ⟨by decide, by decide⟩

/-- Claim C3, amended: the Extractor issues at most two model requests
for any post, and no third request is ever made even when the follow-up
response again requests tool calls; when the first response requests tool
calls and every requested call names the one known tool, all calls are
executed, one result per call is appended to the conversation in request
order, and exactly one follow-up request is issued. (When a requested
call names an unknown function, the dispatch raises and the Extractor
returns a failure dict after a single request, with no follow-up.) -/
theorem c3_amended (loads : String → Except String JVal)
    (priceOf : String → Option ℚ) (strOfFloat : ℚ → String)
    (resp resp2 : Nat → AssistantMessage) (data : TweetData)
    (htc : (resp 0).tool_calls ≠ [])
    (hknown : ∀ tc ∈ (resp 0).tool_calls, tc.function.name = "get_token_price")
    (htc2 : (resp2 1).tool_calls ≠ []) :
    (tweet_analysis loads priceOf strOfFloat resp data).requests = 2 ∧
    (∃ toolMsgs : List Msg,
      (tweet_analysis loads priceOf strOfFloat resp data).followup_messages =
        some (create_gpt_messages data ++ [.assistant (resp 0).tool_calls] ++ toolMsgs) ∧
      toolMsgs.length = (resp 0).tool_calls.length ∧
      toolMsgs.map Msg.toolCallId =
        (resp 0).tool_calls.map (fun tc => some tc.id)) ∧
    (∀ resp3 : Nat → AssistantMessage,
      (tweet_analysis loads priceOf strOfFloat resp3 data).requests ≤ 2) ∧
    (tweet_analysis loads priceOf strOfFloat resp2 data).requests ≤ 2 := by
  have hbound : ∀ resp3 : Nat → AssistantMessage,
      (tweet_analysis loads priceOf strOfFloat resp3 data).requests ≤ 2 := by
    intro resp3
    unfold tweet_analysis
    rcases h3 : (resp3 0).tool_calls with _ | ⟨tc3, tcs3⟩
    · simp only [h3, analysis_finish_requests]
      omega
    · rcases hrun : run_tool_calls loads priceOf strOfFloat (tc3 :: tcs3) with e | results
      · simp only [h3, hrun]
        show (1 : Nat) ≤ 2
        omega
      · simp only [h3, hrun, analysis_finish_requests]
        omega
  rcases h0 : (resp 0).tool_calls with _ | ⟨tc, tcs⟩
  · exact absurd h0 htc
  · obtain ⟨results, hr, hm⟩ :=
      run_tool_calls_ok_of_known loads priceOf strOfFloat (tc :: tcs)
        (h0 ▸ hknown)
    have hlen : results.length = (tc :: tcs).length := by
      have := congrArg List.length hm
      simpa using this
    refine ⟨?_, ⟨results.map fun r => Msg.tool r.1 r.2.1 r.2.2, ?_, ?_, ?_⟩,
      hbound, hbound resp2⟩
    · unfold tweet_analysis
      simp only [h0, hr, analysis_finish_requests]
    · unfold tweet_analysis
      simp only [h0, hr, analysis_finish_followup]
    · simpa using hlen
    · calc (results.map fun r => Msg.tool r.1 r.2.1 r.2.2).map Msg.toolCallId
          = results.map fun r => some r.1 := by
            rw [List.map_map]
            rfl
        _ = (results.map fun r => r.1).map some := by
            rw [List.map_map]
            rfl
        _ = ((tc :: tcs).map fun tc => tc.id).map some := by rw [hm]
        _ = (tc :: tcs).map fun tc => some tc.id := by
            rw [List.map_map]
            rfl

/-- Claim C3, witness for the amended theorem at a concrete input with
three requested tool calls. -/
theorem c3_witness :
    (tweet_analysis witness_loads (fun _ => some 5) (fun _ => "5.0")
        (fun n => match n with
          | 0 => ⟨none, [⟨"a", ⟨"get_token_price", tool_args_btc⟩⟩,
                  ⟨"b", ⟨"get_token_price", "bad"⟩⟩,
                  ⟨"c", ⟨"get_token_price", tool_args_btc⟩⟩]⟩
          | _ => ⟨some "x", []⟩)
        ⟨some "1", none, none, none, none, none, none⟩).requests = 2 ∧
    (∃ toolMsgs : List Msg,
      (tweet_analysis witness_loads (fun _ => some 5) (fun _ => "5.0")
        (fun n => match n with
          | 0 => ⟨none, [⟨"a", ⟨"get_token_price", tool_args_btc⟩⟩,
                  ⟨"b", ⟨"get_token_price", "bad"⟩⟩,
                  ⟨"c", ⟨"get_token_price", tool_args_btc⟩⟩]⟩
          | _ => ⟨some "x", []⟩)
        ⟨some "1", none, none, none, none, none, none⟩).followup_messages =
        some (create_gpt_messages ⟨some "1", none, none, none, none, none, none⟩ ++
          [.assistant ((fun n => match n with
            | 0 => (⟨none, [⟨"a", ⟨"get_token_price", tool_args_btc⟩⟩,
                    ⟨"b", ⟨"get_token_price", "bad"⟩⟩,
                    ⟨"c", ⟨"get_token_price", tool_args_btc⟩⟩]⟩ : AssistantMessage)
            | _ => ⟨some "x", []⟩) (0 : Nat)).tool_calls] ++ toolMsgs) ∧
      toolMsgs.length = ((fun n => match n with
            | 0 => (⟨none, [⟨"a", ⟨"get_token_price", tool_args_btc⟩⟩,
                    ⟨"b", ⟨"get_token_price", "bad"⟩⟩,
                    ⟨"c", ⟨"get_token_price", tool_args_btc⟩⟩]⟩ : AssistantMessage)
            | _ => ⟨some "x", []⟩) (0 : Nat)).tool_calls.length ∧
      toolMsgs.map Msg.toolCallId = ((fun n => match n with
            | 0 => (⟨none, [⟨"a", ⟨"get_token_price", tool_args_btc⟩⟩,
                    ⟨"b", ⟨"get_token_price", "bad"⟩⟩,
                    ⟨"c", ⟨"get_token_price", tool_args_btc⟩⟩]⟩ : AssistantMessage)
            | _ => ⟨some "x", []⟩) (0 : Nat)).tool_calls.map
        (fun (tc : ToolCall) => some tc.id)) ∧
    (∀ resp3 : Nat → AssistantMessage,
      (tweet_analysis witness_loads (fun _ => some 5) (fun _ => "5.0") resp3
        ⟨some "1", none, none, none, none, none, none⟩).requests ≤ 2) ∧
    (tweet_analysis witness_loads (fun _ => some 5) (fun _ => "5.0")
        (fun n => match n with
          | 0 => ⟨none, [⟨"x", ⟨"get_token_price", "bad"⟩⟩]⟩
          | _ => ⟨none, [⟨"y", ⟨"get_token_price", "bad"⟩⟩]⟩)
        ⟨some "1", none, none, none, none, none, none⟩).requests ≤ 2 :=
  c3_amended witness_loads (fun _ => some 5) (fun _ => "5.0")
    (fun n => match n with
      | 0 => ⟨none, [⟨"a", ⟨"get_token_price", tool_args_btc⟩⟩,
              ⟨"b", ⟨"get_token_price", "bad"⟩⟩,
              ⟨"c", ⟨"get_token_price", tool_args_btc⟩⟩]⟩
      | _ => ⟨some "x", []⟩)
    (fun n => match n with
      | 0 => ⟨none, [⟨"x", ⟨"get_token_price", "bad"⟩⟩]⟩
      | _ => ⟨none, [⟨"y", ⟨"get_token_price", "bad"⟩⟩]⟩)
    ⟨some "1", none, none, none, none, none, none⟩
    (by decide) (by decide) (by decide)

/-! # Claim C6: digit and padding lemmas -/

theorem digitVal_dChar (d : Nat) (h : d < 10) : digitVal? (dChar d) = some d := by
  interval_cases d <;> decide

theorem dChar_ne_Z (d : Nat) (h : d < 10) : dChar d ≠ 'Z' := by
  interval_cases d <;> decide

theorem parse2_pad2 {rest : List Char} (n : Nat) (h : n < 100) :
    parse2 (pad2 n ++ rest) = some (n, rest) := by
  have h1 : n / 10 < 10 := by omega
  have h2 : n % 10 < 10 := by omega
  simp only [pad2, List.cons_append, List.nil_append, parse2,
    digitVal_dChar _ h1, digitVal_dChar _ h2]
  congr 1
  ext
  · omega
  · rfl

theorem parse2_pad2_nil (n : Nat) (h : n < 100) :
    parse2 (pad2 n) = some (n, []) := by
  have e : pad2 n = pad2 n ++ [] := by simp
  rw [e, parse2_pad2 _ h]

theorem parse4_pad4 {rest : List Char} (n : Nat) (h : n < 10000) :
    parse4 (pad4 n ++ rest) = some (n, rest) := by
  have e : pad4 n ++ rest = pad2 (n / 100) ++ (pad2 (n % 100) ++ rest) := by
    simp [pad4, List.append_assoc]
  rw [e]
  simp only [parse4, parse2_pad2 _ (show n / 100 < 100 by omega),
    parse2_pad2 _ (show n % 100 < 100 by omega)]
  congr 1
  ext
  · omega
  · rfl

theorem expect_cons (c : Char) (rest : List Char) :
    expectChar c (c :: rest) = some rest := by
  simp [expectChar]

theorem ne_Z_of_mem_pad2 {c : Char} (n : Nat) (h : n < 100) (hc : c ∈ pad2 n) :
    c ≠ 'Z' := by
  simp only [pad2, List.mem_cons, List.mem_singleton, List.not_mem_nil] at hc
  rcases hc with rfl | rfl | hfalse
  · exact dChar_ne_Z _ (by omega)
  · exact dChar_ne_Z _ (by omega)
  · cases hfalse

theorem ne_Z_of_mem_pad4 {c : Char} (n : Nat) (h : n < 10000) (hc : c ∈ pad4 n) :
    c ≠ 'Z' := by
  simp only [pad4, List.mem_append] at hc
  rcases hc with hc | hc
  · exact ne_Z_of_mem_pad2 _ (by omega) hc
  · exact ne_Z_of_mem_pad2 _ (by omega) hc

theorem replaceZL_noZ (cs : List Char) (h : ∀ c ∈ cs, c ≠ 'Z') :
    replaceZL cs = cs := by
  induction cs with
  | nil => rfl
  | cons c rest ih =>
    have hc := h c (List.mem_cons_self _ _)
    have hr := ih fun x hx => h x (List.mem_cons_of_mem _ hx)
    simp only [replaceZL, List.flatMap_cons] at hr ⊢
    rw [if_neg hc, hr]
    rfl

theorem replaceZ_renderIsoZ (y mo d hh mi ss : Nat) (hy : y ≤ 9999)
    (hmo : mo ≤ 99) (hd : d ≤ 99) (hhh : hh ≤ 99) (hmi : mi ≤ 99)
    (hss : ss ≤ 99) :
    replaceZ (renderIsoZ y mo d hh mi ss) =
      ⟨pad4 y ++ '-' :: pad2 mo ++ '-' :: pad2 d ++ 'T' :: pad2 hh ++
        ':' :: pad2 mi ++ ':' :: pad2 ss ++ ['+', '0', '0', ':', '0', '0']⟩ := by
  have hsplit : pad4 y ++ '-' :: pad2 mo ++ '-' :: pad2 d ++ 'T' :: pad2 hh ++
      ':' :: pad2 mi ++ ':' :: pad2 ss ++ ['Z'] =
      (pad4 y ++ '-' :: pad2 mo ++ '-' :: pad2 d ++ 'T' :: pad2 hh ++
        ':' :: pad2 mi ++ ':' :: pad2 ss) ++ ['Z'] := by
    simp [List.append_assoc]
  have hnoZ : ∀ c ∈ pad4 y ++ '-' :: pad2 mo ++ '-' :: pad2 d ++ 'T' :: pad2 hh ++
      ':' :: pad2 mi ++ ':' :: pad2 ss, c ≠ 'Z' := by
    intro c hc
    simp only [List.mem_append, List.mem_cons] at hc
    rcases hc with ((((hc | hc | hc) | hc | hc) | hc | hc) | hc | hc) | hc | hc
    · exact ne_Z_of_mem_pad4 _ (by omega) hc
    · rw [hc]; decide
    · exact ne_Z_of_mem_pad2 _ (by omega) hc
    · rw [hc]; decide
    · exact ne_Z_of_mem_pad2 _ (by omega) hc
    · rw [hc]; decide
    · exact ne_Z_of_mem_pad2 _ (by omega) hc
    · rw [hc]; decide
    · exact ne_Z_of_mem_pad2 _ (by omega) hc
    · rw [hc]; decide
    · exact ne_Z_of_mem_pad2 _ (by omega) hc
  unfold replaceZ renderIsoZ
  congr 1
  show replaceZL (pad4 y ++ '-' :: pad2 mo ++ '-' :: pad2 d ++ 'T' :: pad2 hh ++
    ':' :: pad2 mi ++ ':' :: pad2 ss ++ ['Z']) = _
  rw [hsplit]
  unfold replaceZL
  rw [List.flatMap_append]
  have h1 : (pad4 y ++ '-' :: pad2 mo ++ '-' :: pad2 d ++ 'T' :: pad2 hh ++
      ':' :: pad2 mi ++ ':' :: pad2 ss).flatMap
        (fun c => if c = 'Z' then ['+', '0', '0', ':', '0', '0'] else [c]) =
      pad4 y ++ '-' :: pad2 mo ++ '-' :: pad2 d ++ 'T' :: pad2 hh ++
      ':' :: pad2 mi ++ ':' :: pad2 ss := replaceZL_noZ _ hnoZ
  rw [h1]
  simp [List.append_assoc]

theorem replaceZ_renderSpace (y mo d hh mi ss : Nat) (hy : y ≤ 9999)
    (hmo : mo ≤ 99) (hd : d ≤ 99) (hhh : hh ≤ 99) (hmi : mi ≤ 99)
    (hss : ss ≤ 99) :
    replaceZ (renderSpace y mo d hh mi ss) = renderSpace y mo d hh mi ss := by
  have hnoZ : ∀ c ∈ pad4 y ++ '-' :: pad2 mo ++ '-' :: pad2 d ++ ' ' :: pad2 hh ++
      ':' :: pad2 mi ++ ':' :: pad2 ss, c ≠ 'Z' := by
    intro c hc
    simp only [List.mem_append, List.mem_cons] at hc
    rcases hc with ((((hc | hc | hc) | hc | hc) | hc | hc) | hc | hc) | hc | hc
    · exact ne_Z_of_mem_pad4 _ (by omega) hc
    · rw [hc]; decide
    · exact ne_Z_of_mem_pad2 _ (by omega) hc
    · rw [hc]; decide
    · exact ne_Z_of_mem_pad2 _ (by omega) hc
    · rw [hc]; decide
    · exact ne_Z_of_mem_pad2 _ (by omega) hc
    · rw [hc]; decide
    · exact ne_Z_of_mem_pad2 _ (by omega) hc
    · rw [hc]; decide
    · exact ne_Z_of_mem_pad2 _ (by omega) hc
  unfold replaceZ renderSpace
  congr 1
  exact replaceZL_noZ _ hnoZ

theorem daysInMonth_le (y m : Nat) : daysInMonth y m ≤ 31 := by
  unfold daysInMonth
  split
  · split <;> omega
  · split <;> omega

theorem fromiso_renderIsoZ_chars (y mo d hh mi ss : Nat)
    (hy1 : 1 ≤ y) (hy : y ≤ 9999) (hmo1 : 1 ≤ mo) (hmo : mo ≤ 12)
    (hd1 : 1 ≤ d) (hd : d ≤ daysInMonth y mo)
    (hhh : hh < 24) (hmi : mi < 60) (hss : ss < 60) :
    fromisoformatL (pad4 y ++ '-' :: pad2 mo ++ '-' :: pad2 d ++ 'T' :: pad2 hh ++
      ':' :: pad2 mi ++ ':' :: pad2 ss ++ ['+', '0', '0', ':', '0', '0']) =
      some ⟨y, mo, d, hh, mi, ss, 0, some 0⟩ := by
  unfold fromisoformatL parseTime
  simp only [List.append_assoc, List.cons_append,
    parse4_pad4 _ (show y < 10000 by omega), expect_cons,
    parse2_pad2 _ (show mo < 100 by omega),
    parse2_pad2 _ (show d < 100 by have := daysInMonth_le y mo; omega),
    parse2_pad2 _ (show hh < 100 by omega),
    parse2_pad2 _ (show mi < 100 by omega),
    parse2_pad2 _ (show ss < 100 by omega),
    if_pos (show 1 ≤ y ∧ 1 ≤ mo ∧ mo ≤ 12 ∧ 1 ≤ d ∧ d ≤ daysInMonth y mo from
      ⟨hy1, hmo1, hmo, hd1, hd⟩),
    show parseTzOff ['+', '0', '0', ':', '0', '0'] = some (some 0, []) from by decide]
  simp [show parseTzOff ['+', '0', '0', ':', '0', '0'] = some (some 0, []) from
    by decide, hhh, hmi, hss]

theorem fromiso_renderSpace_chars (y mo d hh mi ss : Nat)
    (hy1 : 1 ≤ y) (hy : y ≤ 9999) (hmo1 : 1 ≤ mo) (hmo : mo ≤ 12)
    (hd1 : 1 ≤ d) (hd : d ≤ daysInMonth y mo)
    (hhh : hh < 24) (hmi : mi < 60) (hss : ss < 60) :
    fromisoformatL (pad4 y ++ '-' :: pad2 mo ++ '-' :: pad2 d ++ ' ' :: pad2 hh ++
      ':' :: pad2 mi ++ ':' :: pad2 ss) =
      some ⟨y, mo, d, hh, mi, ss, 0, none⟩ := by
  unfold fromisoformatL parseTime
  simp only [List.append_assoc, List.cons_append,
    parse4_pad4 _ (show y < 10000 by omega), expect_cons,
    parse2_pad2 _ (show mo < 100 by omega),
    parse2_pad2 _ (show d < 100 by have := daysInMonth_le y mo; omega),
    parse2_pad2 _ (show hh < 100 by omega),
    parse2_pad2 _ (show mi < 100 by omega),
    parse2_pad2 _ (show ss < 100 by omega),
    if_pos (show 1 ≤ y ∧ 1 ≤ mo ∧ mo ≤ 12 ∧ 1 ≤ d ∧ d ≤ daysInMonth y mo from
      ⟨hy1, hmo1, hmo, hd1, hd⟩),
    parse2_pad2_nil _ (show ss < 100 by omega)]
  simp [show parseTzOff [] = some (none, ([] : List Char)) from rfl, hhh, hmi, hss]

/-- Claim C6, counterexample. The claim asserts `save_tweet` parses the
provider-native timestamp format to its corresponding datetime; but
`save_tweet`'s own chain (lines 192-206) tries only ISO and the
space-separated format, so a Twitter-native timestamp falls back to the
current time — the validator branch in `TweetModel.parse_datetime` that
would handle it never sees a string on this path. -/
theorem c6_counterexample :
    save_tweet_created_at nowDt0 (some "Wed Oct 10 20:19:24 +0000 2018") = nowDt0 ∧
    strptimeTwitter "Wed Oct 10 20:19:24 +0000 2018" =
      some ⟨2018, 10, 10, 20, 19, 24, 0, none⟩ ∧
    nowDt0 ≠ ⟨2018, 10, 10, 20, 19, 24, 0, none⟩ := by
  exact ⟨by decide, by decide, by decide⟩

/-- Claim C6, amended: `save_tweet` parses ISO-8601 timestamps with a "Z"
zone suffix and space-separated date-times to the corresponding
datetimes, and for a missing timestamp falls back to the current time;
but a provider-native (Twitter-format) timestamp — which neither of
`save_tweet`'s two parsers accepts, though the `TweetModel.parse_datetime`
validator would parse it — also falls back to the current time instead of
its corresponding datetime; in every fallback case the write is still
performed, with the current time stored. -/
theorem c6_amended (y mo d hh mi ss : Nat) (now dt2 : PyDateTime) (s : String)
    (hy1 : 1 ≤ y) (hy : y ≤ 9999) (hmo1 : 1 ≤ mo) (hmo : mo ≤ 12)
    (hd1 : 1 ≤ d) (hd : d ≤ daysInMonth y mo)
    (hhh : hh < 24) (hmi2 : mi < 60) (hss : ss < 60)
    (htw : strptimeTwitter s = some dt2)
    (hiso : fromisoformat (replaceZ s) = none)
    (hsp : strptimeSpace s = none) :
    save_tweet_created_at now (some (renderIsoZ y mo d hh mi ss)) =
      ⟨y, mo, d, hh, mi, ss, 0, some 0⟩ ∧
    save_tweet_created_at now (some (renderSpace y mo d hh mi ss)) =
      ⟨y, mo, d, hh, mi, ss, 0, none⟩ ∧
    save_tweet_created_at now none = now ∧
    save_tweet_created_at now (some s) = now ∧
    TweetModel.parse_datetime now (some s) = dt2 ∧
    (∀ (loads : String → Except String JVal) (db : List TweetRec)
        (acct : String) (d2 : TweetData) (so : Option SummaryModel)
        (summary : Option JVal),
      save_tweet_id d2 ≠ "" →
      find_tweet db (pyLower acct) (save_tweet_id d2) = none →
      parse_summary_arg loads summary = .ok so →
      d2.created_at = some s →
      save_tweet loads now db acct d2 summary =
        (db ++ [tweet_record db.length now acct d2 so], .created db.length) ∧
      (tweet_record db.length now acct d2 so).created_at = now) := by
  have hd99 : d ≤ 99 := by have := daysInMonth_le y mo; omega
  have hfallback : save_tweet_created_at now (some s) = now := by
    unfold save_tweet_created_at
    simp only [hiso, hsp]
  refine ⟨?_, ?_, rfl, hfallback, ?_, ?_⟩
  · unfold save_tweet_created_at
    dsimp only
    rw [replaceZ_renderIsoZ y mo d hh mi ss (by omega) (by omega) hd99
      (by omega) (by omega) (by omega)]
    simp only [fromisoformat,
      fromiso_renderIsoZ_chars y mo d hh mi ss hy1 hy hmo1 hmo hd1 hd hhh hmi2 hss]
  · unfold save_tweet_created_at
    dsimp only
    rw [replaceZ_renderSpace y mo d hh mi ss (by omega) (by omega) hd99
      (by omega) (by omega) (by omega)]
    unfold renderSpace
    simp only [fromisoformat,
      fromiso_renderSpace_chars y mo d hh mi ss hy1 hy hmo1 hmo hd1 hd hhh hmi2 hss]
  · unfold TweetModel.parse_datetime
    simp only [hiso, hsp, htw]
  · intro loads db acct d2 so summary h0 h1 h2 hca
    refine ⟨save_tweet_of_not_found loads now db acct d2 summary so h0 h1 h2, ?_⟩
    show save_tweet_created_at now d2.created_at = now
    rw [hca]
    exact hfallback

/-- Claim C6, witness for the amended theorem at concrete inputs. -/
theorem c6_witness :
    save_tweet_created_at nowDt0 (some (renderIsoZ 2024 1 2 3 4 5)) =
      ⟨2024, 1, 2, 3, 4, 5, 0, some 0⟩ ∧
    save_tweet_created_at nowDt0 (some (renderSpace 2024 1 2 3 4 5)) =
      ⟨2024, 1, 2, 3, 4, 5, 0, none⟩ ∧
    save_tweet_created_at nowDt0 none = nowDt0 ∧
    save_tweet_created_at nowDt0 (some "Wed Oct 10 20:19:24 +0000 2018") = nowDt0 ∧
    TweetModel.parse_datetime nowDt0 (some "Wed Oct 10 20:19:24 +0000 2018") =
      ⟨2018, 10, 10, 20, 19, 24, 0, none⟩ ∧
    (∀ (loads : String → Except String JVal) (db : List TweetRec)
        (acct : String) (d2 : TweetData) (so : Option SummaryModel)
        (summary : Option JVal),
      save_tweet_id d2 ≠ "" →
      find_tweet db (pyLower acct) (save_tweet_id d2) = none →
      parse_summary_arg loads summary = .ok so →
      d2.created_at = some "Wed Oct 10 20:19:24 +0000 2018" →
      save_tweet loads nowDt0 db acct d2 summary =
        (db ++ [tweet_record db.length nowDt0 acct d2 so], .created db.length) ∧
      (tweet_record db.length nowDt0 acct d2 so).created_at = nowDt0) :=
  c6_amended 2024 1 2 3 4 5 nowDt0 ⟨2018, 10, 10, 20, 19, 24, 0, none⟩
    "Wed Oct 10 20:19:24 +0000 2018"
    (by decide) (by decide) (by decide) (by decide) (by decide) (by decide)
    (by decide) (by decide) (by decide) (by decide) (by decide) (by decide)

/-! # Claim C5 -/

theorem pySortDesc_head_max (key : TweetData → Nat) (l : List TweetData)
    (t0 : TweetData) (rest : List TweetData)
    (hsort : pySortDesc key l = t0 :: rest) :
    t0 ∈ l ∧ ∀ t ∈ l, key t ≤ key t0 := by
  haveI hTot : IsTotal TweetData (fun a b => key b ≤ key a) :=
    ⟨fun a b => le_total (key b) (key a)⟩
  haveI hTrans : IsTrans TweetData (fun a b => key b ≤ key a) :=
    ⟨fun a b c hab hbc => le_trans hbc hab⟩
  have hperm : (pySortDesc key l).Perm l := List.perm_insertionSort _ l
  have hsorted : List.Sorted (fun a b => key b ≤ key a) (pySortDesc key l) :=
    List.sorted_insertionSort _ l
  rw [hsort] at hperm hsorted
  refine ⟨hperm.mem_iff.mp (List.mem_cons_self _ _), ?_⟩
  intro t ht
  have ht2 : t ∈ t0 :: rest := hperm.mem_iff.mpr ht
  rcases List.mem_cons.mp ht2 with rfl | ht3
  · exact le_refl _
  · exact List.rel_of_sorted_cons hsorted t ht3

/-- Claim C5 (confirmed): for a non-empty fetched tweet list whose
creation timestamps all parse and are pairwise distinct, the per-account
pass selects exactly the tweet with the maximum parsed creation
timestamp as the single candidate submitted to dedup-check, extraction
and storage, and the store either is unchanged or is changed only by
saving that candidate — no other fetched tweet is stored. -/
theorem c5_newest_selected (loads : String → Except String JVal)
    (analyze : TweetData → JVal) (now_dt : PyDateTime) (uid : String)
    (db : List TweetRec) (tweets : List TweetData)
    (hne : tweets ≠ [])
    (hparse : (tweets.all fun t => (tweet_sort_key t).isSome) = true)
    (hdist : ∀ t1 ∈ tweets, ∀ t2 ∈ tweets, t1 ≠ t2 →
      (tweet_sort_key t1).getD 0 ≠ (tweet_sort_key t2).getD 0) :
    ∃ tstar ∈ tweets,
      (∀ t ∈ tweets, t ≠ tstar →
        (tweet_sort_key t).getD 0 < (tweet_sort_key tstar).getD 0) ∧
      (account_body loads analyze now_dt uid db tweets).candidate = some tstar ∧
      ((account_body loads analyze now_dt uid db tweets).db = db ∨
        ∃ uname tid, tstar.username = some uname ∧ tstar.id = some tid ∧
          (account_body loads analyze now_dt uid db tweets).db =
            (save_tweet loads now_dt db uname tstar (some (analyze tstar))).1) := by
  rcases tweets with _ | ⟨t0, trest⟩
  · exact absurd rfl hne
  · rcases hs : pySortDesc (fun t => (tweet_sort_key t).getD 0) (t0 :: trest)
      with _ | ⟨m, srest⟩
    · exfalso
      have hperm := List.perm_insertionSort
        (fun (a b : TweetData) =>
          (tweet_sort_key b).getD 0 ≤ (tweet_sort_key a).getD 0) (t0 :: trest)
      rw [show List.insertionSort (fun (a b : TweetData) =>
          (tweet_sort_key b).getD 0 ≤ (tweet_sort_key a).getD 0) (t0 :: trest) =
          pySortDesc (fun t => (tweet_sort_key t).getD 0) (t0 :: trest) from rfl,
        hs] at hperm
      exact absurd hperm.symm (List.cons_ne_nil t0 trest ∘ List.Perm.eq_nil)
    · obtain ⟨hmem, hmax⟩ := pySortDesc_head_max _ _ _ _ hs
      refine ⟨m, hmem, ?_, ?_⟩
      · intro t ht htne
        exact lt_of_le_of_ne (hmax t ht) (hdist t ht m hmem htne)
      · have hbody : account_body loads analyze now_dt uid db (t0 :: trest) =
            match m.username, m.id with
            | some uname, some tid =>
              match check_tweet_exists db uname tid with
              | .found _ => ⟨db, [.tweet_exists uname], some m, false⟩
              | .not_found =>
                ⟨(save_tweet loads now_dt db uname m (some (analyze m))).1,
                  [.analyzed uname, .saved uname
                    (save_tweet loads now_dt db uname m (some (analyze m))).2.status],
                  some m, true⟩
            | _, _ => ⟨db, [.account_error uid], some m, false⟩ := by
          unfold account_body
          dsimp only
          rw [if_pos hparse, hs]
        rw [hbody]
        rcases hu : m.username with _ | uname
        · simp only [hu]
          exact ⟨trivial, .inl trivial⟩
        · rcases hi : m.id with _ | tid
          · simp only [hu, hi]
            exact ⟨trivial, .inl trivial⟩
          · simp only [hu, hi]
            rcases hc : check_tweet_exists db uname tid with oid | _
            · simp only [hc]
              exact ⟨trivial, .inl trivial⟩
            · simp only [hc]
              exact ⟨trivial, .inr ⟨uname, tid, rfl, rfl, rfl⟩⟩

/-- Claim C5, witness at a concrete two-tweet fetch with distinct
timestamps. -/
theorem c5_witness :
    ∃ tstar ∈ [(⟨some "7", none, none, none, some "2024-01-01T00:00:01Z", none,
        some "alice"⟩ : TweetData),
      ⟨some "8", none, none, none, some "2024-01-01T00:00:02Z", none,
        some "alice"⟩],
      (∀ t ∈ [(⟨some "7", none, none, none, some "2024-01-01T00:00:01Z", none,
          some "alice"⟩ : TweetData),
        ⟨some "8", none, none, none, some "2024-01-01T00:00:02Z", none,
          some "alice"⟩], t ≠ tstar →
        (tweet_sort_key t).getD 0 < (tweet_sort_key tstar).getD 0) ∧
      (account_body witness_loads (fun _ => empty_response_fallback_val) nowDt0
        "1" [] [⟨some "7", none, none, none, some "2024-01-01T00:00:01Z", none,
          some "alice"⟩,
        ⟨some "8", none, none, none, some "2024-01-01T00:00:02Z", none,
          some "alice"⟩]).candidate = some tstar ∧
      ((account_body witness_loads (fun _ => empty_response_fallback_val) nowDt0
        "1" [] [⟨some "7", none, none, none, some "2024-01-01T00:00:01Z", none,
          some "alice"⟩,
        ⟨some "8", none, none, none, some "2024-01-01T00:00:02Z", none,
          some "alice"⟩]).db = [] ∨
        ∃ uname tid, tstar.username = some uname ∧ tstar.id = some tid ∧
          (account_body witness_loads (fun _ => empty_response_fallback_val) nowDt0
            "1" [] [⟨some "7", none, none, none, some "2024-01-01T00:00:01Z", none,
              some "alice"⟩,
            ⟨some "8", none, none, none, some "2024-01-01T00:00:02Z", none,
              some "alice"⟩]).db =
            (save_tweet witness_loads nowDt0 [] uname tstar
              (some ((fun _ => empty_response_fallback_val) tstar))).1) :=
  c5_newest_selected witness_loads (fun _ => empty_response_fallback_val) nowDt0
    "1" []
    [⟨some "7", none, none, none, some "2024-01-01T00:00:01Z", none, some "alice"⟩,
     ⟨some "8", none, none, none, some "2024-01-01T00:00:02Z", none, some "alice"⟩]
    (by decide) (by decide) (by decide)

/-! # Claim C7 -/

theorem account_body_events (loads : String → Except String JVal)
    (analyze : TweetData → JVal) (now_dt : PyDateTime) (uid : String)
    (db : List TweetRec) (tweets : List TweetData) :
    ∀ e ∈ (account_body loads analyze now_dt uid db tweets).events,
      e.is_processing = true := by
  intro e he
  unfold account_body at he
  rcases tweets with _ | ⟨t0, trest⟩
  · simp at he
  · dsimp only at he
    by_cases hall : ((t0 :: trest).all fun t => (tweet_sort_key t).isSome) = true
    · rw [if_pos hall] at he
      rcases hs : pySortDesc (fun t => (tweet_sort_key t).getD 0) (t0 :: trest)
        with _ | ⟨m, srest⟩ <;> rw [hs] at he
      · simp only [List.mem_singleton] at he
        subst he; rfl
      · rcases hu : m.username with _ | uname
        · simp only [hu] at he
          simp only [List.mem_singleton] at he
          subst he; rfl
        · rcases hi : m.id with _ | tid
          · simp only [hu, hi] at he
            simp only [List.mem_singleton] at he
            subst he; rfl
          · simp only [hu, hi] at he
            rcases hc : check_tweet_exists db uname tid with oid | _ <;>
              simp only [hc] at he
            · simp only [List.mem_singleton] at he
              subst he; rfl
            · simp only [List.mem_cons, List.mem_singleton,
                List.not_mem_nil, or_false] at he
              rcases he with rfl | rfl <;> rfl
    · rw [if_neg hall] at he
      simp only [List.mem_singleton] at he
      subst he; rfl

/-- Running a two-account pass given the first account's step result:
the second account (with a valid ID) contributes a trace opening with
its provider fetch. -/
theorem fetch_two (loads : String → Except String JVal)
    (analyze : TweetData → JVal) (now : Int) (now_dt : PyDateTime)
    (env : String → XResp) (db d1 : List TweetRec) (tr1 : List Ev)
    (u1 u2 : String)
    (hs1 : account_step loads analyze now now_dt env db u1 = (d1, tr1))
    (hv2 : (u2 = "" || !py_isdigit u2) = false) :
    ∃ d2 evs2,
      fetch_influencers_tweets loads analyze now now_dt env db [u1, u2] =
        (d2, tr1 ++ (Ev.fetch u2 :: evs2)) := by
  have hstep2 : ∃ d2 evs2x, account_step loads analyze now now_dt env d1 u2 =
      (d2, Ev.fetch u2 :: evs2x) := by
    unfold account_step
    simp only [hv2, Bool.false_eq_true, if_false]
    exact ⟨_, _, rfl⟩
  obtain ⟨d2, evs2x, hstep2⟩ := hstep2
  have hb2 : run_batch loads analyze now now_dt env d1 [u2] =
      (d2, Ev.fetch u2 :: evs2x) := by
    unfold run_batch
    simp only [hstep2]
    simp [run_batch]
  refine ⟨d2, evs2x, ?_⟩
  unfold fetch_influencers_tweets
  rw [show chunks10 [u1, u2] = [[u1, u2]] from rfl]
  unfold run_batches run_batch
  simp only [hs1, hb2]

/-- Claim C7, counterexample to the claim as stated: the rate headers
report zero remaining budget with a reset 60 seconds away, but the
account's newest post is already stored, so the `continue` taken on the
exists branch skips the rate-limit sleep: the next account's provider
fetch is issued immediately and the pass trace holds no suspension
event at all. -/
theorem c7_counterexample :
    (get_user_tweets ((fun uid => if uid = "1"
        then XResp.ok [⟨some "9", none, none, none,
            some "2024-01-01T00:00:00Z", none, some "alice"⟩]
          ⟨some 0, some (1000 + 60)⟩
        else XResp.err) "1")).2.remaining = some 0 ∧
    (get_user_tweets ((fun uid => if uid = "1"
        then XResp.ok [⟨some "9", none, none, none,
            some "2024-01-01T00:00:00Z", none, some "alice"⟩]
          ⟨some 0, some (1000 + 60)⟩
        else XResp.err) "1")).2.reset = some (1000 + 60) ∧
    fetch_influencers_tweets witness_loads
        (fun _ => empty_response_fallback_val) 1000 nowDt0
        (fun uid => if uid = "1"
          then XResp.ok [⟨some "9", none, none, none,
              some "2024-01-01T00:00:00Z", none, some "alice"⟩]
            ⟨some 0, some (1000 + 60)⟩
          else XResp.err)
        [⟨0, "9", "alice", "", [], nowDt0, none, false⟩] ["1", "2"] =
      ([⟨0, "9", "alice", "", [], nowDt0, none, false⟩],
        [Ev.fetch "1", Ev.tweet_exists "alice", Ev.fetch "2"]) ∧
    ([Ev.fetch "1", Ev.tweet_exists "alice", Ev.fetch "2"].all
      fun e => ! e.is_sleep) = true := by
  refine ⟨rfl, rfl, ?_, ?_⟩
  · decide
  · decide

/-- Claim C7 (corrected): after an account fetch whose headers report
zero remaining budget and a reset time of now plus 60 seconds, the
60-second suspension is emitted between that account's processing and
the next account's provider fetch only when the account's body runs to
completion (no tweets fetched, or a new post analyzed and saved); when
the body does not complete — the `continue` taken because the newest
post already exists, or an exception reaching the per-account handler —
the sleep is skipped and the next account's provider fetch follows the
processing events with no suspension in between. -/
theorem c7_amended (loads : String → Except String JVal)
    (analyze : TweetData → JVal) (now : Int) (now_dt : PyDateTime)
    (env : String → XResp) (u1 u2 : String)
    (hv1 : (u1 = "" || !py_isdigit u1) = false)
    (hv2 : (u2 = "" || !py_isdigit u2) = false)
    (hrem : (get_user_tweets (env u1)).2.remaining = some 0)
    (hres : (get_user_tweets (env u1)).2.reset = some (now + 60)) :
    (∀ db : List TweetRec,
      (account_body loads analyze now_dt u1 db
        (get_user_tweets (env u1)).1).completed = true →
      ∃ evs1 evs2 db2,
        fetch_influencers_tweets loads analyze now now_dt env db [u1, u2] =
          (db2, Ev.fetch u1 ::
            (evs1 ++ (Ev.sleep_rate 60 :: Ev.fetch u2 :: evs2))) ∧
        ∀ e ∈ evs1, e.is_processing = true) ∧
    (∀ db : List TweetRec,
      (account_body loads analyze now_dt u1 db
        (get_user_tweets (env u1)).1).completed = false →
      ∃ evs1 evs2 db2,
        fetch_influencers_tweets loads analyze now now_dt env db [u1, u2] =
          (db2, Ev.fetch u1 :: (evs1 ++ (Ev.fetch u2 :: evs2))) ∧
        (∀ e ∈ evs1, e.is_processing = true) ∧
        (∀ e ∈ evs1, e.is_sleep = false)) := by
  have hsub : now + 60 - now = 60 := by omega
  constructor
  · intro db hcomp
    have hstep1 : account_step loads analyze now now_dt env db u1 =
        ((account_body loads analyze now_dt u1 db
            (get_user_tweets (env u1)).1).db,
          Ev.fetch u1 ::
            (account_body loads analyze now_dt u1 db
              (get_user_tweets (env u1)).1).events
            ++ [Ev.sleep_rate 60]) := by
      unfold account_step
      simp only [hv1, Bool.false_eq_true, if_false, rate_remaining, rate_reset,
        hrem, hres, Option.getD_some, hsub, hcomp, and_self, if_true]
    obtain ⟨d2, evs2, hrun⟩ :=
      fetch_two loads analyze now now_dt env db _ _ u1 u2 hstep1 hv2
    refine ⟨(account_body loads analyze now_dt u1 db
        (get_user_tweets (env u1)).1).events, evs2, d2, ?_,
      account_body_events loads analyze now_dt u1 db _⟩
    rw [hrun]
    simp [List.append_assoc, List.cons_append, List.append_nil]
  · intro db hcomp
    have hstep1 : account_step loads analyze now now_dt env db u1 =
        ((account_body loads analyze now_dt u1 db
            (get_user_tweets (env u1)).1).db,
          Ev.fetch u1 ::
            (account_body loads analyze now_dt u1 db
              (get_user_tweets (env u1)).1).events) := by
      unfold account_step
      simp only [hv1, Bool.false_eq_true, if_false, hcomp, and_false, if_false,
        List.append_nil]
    obtain ⟨d2, evs2, hrun⟩ :=
      fetch_two loads analyze now now_dt env db _ _ u1 u2 hstep1 hv2
    refine ⟨(account_body loads analyze now_dt u1 db
        (get_user_tweets (env u1)).1).events, evs2, d2, ?_,
      account_body_events loads analyze now_dt u1 db _, ?_⟩
    · rw [hrun]
      simp [List.cons_append]
    · intro e he
      have hp := account_body_events loads analyze now_dt u1 db
        (get_user_tweets (env u1)).1 e he
      cases e <;> first | rfl | simp [Ev.is_processing] at hp

/-- Claim C7, witness at a concrete two-account environment with
remaining budget 0 and reset 60 seconds after now. -/
theorem c7_witness :
    (∀ db : List TweetRec,
      (account_body witness_loads (fun _ => empty_response_fallback_val)
        nowDt0 "1" db
        (get_user_tweets ((fun uid => if uid = "1"
          then XResp.ok [] ⟨some 0, some (1000 + 60)⟩
          else XResp.ok [] ⟨none, none⟩) "1")).1).completed = true →
      ∃ evs1 evs2 db2,
        fetch_influencers_tweets witness_loads
            (fun _ => empty_response_fallback_val) 1000 nowDt0
            (fun uid => if uid = "1"
              then XResp.ok [] ⟨some 0, some (1000 + 60)⟩
              else XResp.ok [] ⟨none, none⟩) db ["1", "2"] =
          (db2, Ev.fetch "1" ::
            (evs1 ++ (Ev.sleep_rate 60 :: Ev.fetch "2" :: evs2))) ∧
        ∀ e ∈ evs1, e.is_processing = true) ∧
    (∀ db : List TweetRec,
      (account_body witness_loads (fun _ => empty_response_fallback_val)
        nowDt0 "1" db
        (get_user_tweets ((fun uid => if uid = "1"
          then XResp.ok [] ⟨some 0, some (1000 + 60)⟩
          else XResp.ok [] ⟨none, none⟩) "1")).1).completed = false →
      ∃ evs1 evs2 db2,
        fetch_influencers_tweets witness_loads
            (fun _ => empty_response_fallback_val) 1000 nowDt0
            (fun uid => if uid = "1"
              then XResp.ok [] ⟨some 0, some (1000 + 60)⟩
              else XResp.ok [] ⟨none, none⟩) db ["1", "2"] =
          (db2, Ev.fetch "1" :: (evs1 ++ (Ev.fetch "2" :: evs2))) ∧
        (∀ e ∈ evs1, e.is_processing = true) ∧
        (∀ e ∈ evs1, e.is_sleep = false)) :=
  c7_amended witness_loads (fun _ => empty_response_fallback_val)
    1000 nowDt0
    (fun uid => if uid = "1" then XResp.ok [] ⟨some 0, some (1000 + 60)⟩
      else XResp.ok [] ⟨none, none⟩) "1" "2"
    (by decide) (by decide) (by decide) (by decide)
